import Mathlib

/-!
Verification of the SpotifyDataAnalytics star-schema ETL pipeline.

The definitions below are a shallow embedding of the repository's core:
`src/ReadProcess.py` (extract, clean, dimension builders, merges, fact
table), `src/localization.py` (geolocation enrichment of the location
dimension), and the stage-2 orchestration in `main.py`.

Modelling conventions:
- a pandas DataFrame column of dtype object that may hold NaN is an
  `Option` field; a DataFrame is a `List` of row structures;
- `drop_duplicates(subset=[k])` (keep-first) is `dedupKeyed`;
- `df["id"] = df.index` after `reset_index(drop=True)` is `withIndex`
  starting at 0;
- `df.merge(dim, on=k, how="left")` is `leftMergeId`: every left row is
  kept, matched against all right rows with an equal key (pandas also
  matches null keys with null keys, hence keys are compared as `Option`
  values); a left row without a match gets a `none` id;
- MaxMind database readers are lookup functions returning `Option`
  results (`none` models the per-address exception branch);
- latitude/longitude are modelled as `Rat` (only equality with the
  fill-value 0 matters to the properties below).
-/

namespace SpotifyETL

/-- Substring test on character lists (Python `pat in s`). -/
def listInfix (pat : List Char) : List Char → Bool
  | [] => pat.isEmpty
  | c :: t => pat.isPrefixOf (c :: t) || listInfix pat t

/-- Python `pat in s` on strings. -/
def strContains (s pat : String) : Bool := listInfix pat.data s.data

/-- Python `str.lower()` (per-character lowering). -/
def strLower (s : String) : String := String.mk (s.data.map Char.toLower)

/-- Zero-padded decimal rendering, as used by `strftime` field formatting. -/
def padNum (w n : Nat) : String :=
  let s := toString n
  String.mk (List.replicate (w - s.length) '0') ++ s

/-- English weekday name of a calendar date (pandas `dt.day_name()`),
via Zeller's congruence. -/
def dayName (y m d : Nat) : String :=
  let ym := if m ≤ 2 then (y - 1, m + 12) else (y, m)
  let k := ym.1 % 100
  let j := ym.1 / 100
  let h := (d + (13 * (ym.2 + 1)) / 5 + k + k / 4 + j / 4 + 5 * j) % 7
  ["Saturday", "Sunday", "Monday", "Tuesday", "Wednesday",
   "Thursday", "Friday"].getD h "Saturday"

/-- A parsed timestamp at the granularity the pipeline observes
(`strftime("%Y%m%d%H")`, `dt.year/month/day/hour`, `dt.day_name()`). -/
structure Timestamp where
  year : Nat
  month : Nat
  day : Nat
  hour : Nat
deriving DecidableEq

/-- `ts.dt.strftime("%Y%m%d%H")` — the hour-truncated date natural key. -/
def Timestamp.dateId (t : Timestamp) : String :=
  padNum 4 t.year ++ padNum 2 t.month ++ padNum 2 t.day ++ padNum 2 t.hour

/-- `drop_duplicates(subset=key)` with keep-first semantics: worker with
the set of already-seen key values. -/
def dedupGo (key : α → κ) [DecidableEq κ] (seen : List κ) : List α → List α
  | [] => []
  | x :: xs =>
    if key x ∈ seen then dedupGo key seen xs
    else x :: dedupGo key (key x :: seen) xs

/-- pandas `drop_duplicates(subset=[key])` / `Series.unique()`:
keep the first row for each distinct key value, preserving order. -/
def dedupKeyed (key : α → κ) [DecidableEq κ] (l : List α) : List α :=
  dedupGo key [] l

/-- `df["id"] = df.index` after `reset_index(drop=True)`: pair each row
with its dense zero-based position. -/
def withIndex (f : α → Nat → β) : List α → Nat → List β
  | [], _ => []
  | x :: xs, i => f x i :: withIndex f xs (i + 1)

/-- One cleaned streaming-history event row, as consumed by the dimension
builders, the merges and the fact assembler (`src/ReadProcess.py`). -/
structure Record where
  ts : Timestamp
  platform : Option String
  spotify_track_uri : Option String
  master_metadata_track_name : Option String
  master_metadata_album_artist_name : Option String
  master_metadata_album_album_name : Option String
  spotify_episode_uri : Option String
  episode_name : Option String
  episode_show_name : Option String
  ip_addr : Option String
  conn_country : Option String
  ms_played : Int
  skipped : Option Int
  shuffle : Option Int
  offline : Option Int
  incognito_mode : Option Int
  event_id : Nat
deriving DecidableEq

/-- `config.UNKNOWN_VALUE`. -/
def UNKNOWN_VALUE : String := "Unknown"

/-- `config.UNKNOWN_ID`. -/
def UNKNOWN_ID : Int := -1

/-- Row of `dim_date` (`create_dim_date`): hour-truncated natural key
plus derived calendar attributes. -/
structure DimDateRow where
  date_id : String
  year : Nat
  month : Nat
  day : Nat
  weekday : String
  hour : Nat
deriving DecidableEq

/-- The per-row column derivations of `create_dim_date`
(`src/ReadProcess.py:100-106`): hourly key plus calendar attributes. -/
def dimDateRowOf (r : Record) : DimDateRow :=
  { date_id := r.ts.dateId
    year := r.ts.year
    month := r.ts.month
    day := r.ts.day
    weekday := dayName r.ts.year r.ts.month r.ts.day
    hour := r.ts.hour }

/-- `create_dim_date` (`src/ReadProcess.py:91-114`): derive the hourly
key and calendar columns, then `drop_duplicates(subset=["date_id"])`.
No sentinel row is prepended by this builder. -/
def create_dim_date (df : List Record) : List DimDateRow :=
  dedupKeyed (fun r => r.date_id) (df.map dimDateRowOf)

/-- `classify_device` (`src/ReadProcess.py:116-130`). -/
def classify_device (platform : Option String) : String :=
  match platform with
  | none => "unknown"
  | some p0 =>
    let p := strLower p0
    if strContains p "android" || strContains p "ios" then "mobile"
    else if strContains p "windows" || strContains p "mac" then "desktop"
    else if strContains p "web" then "web"
    else "other"

/-- Row of `dim_device`. -/
structure DimDeviceRow where
  platform : Option String
  device_type : String
  device_id : Int
deriving DecidableEq

/-- `create_dim_device` (`src/ReadProcess.py:132-152`): classify, dedup
on `platform`, assign dense `device_id`, prepend the unknown row. -/
def create_dim_device (df : List Record) : List DimDeviceRow :=
  let dedup := dedupKeyed (fun p => p.1)
    (df.map (fun r => (r.platform, classify_device r.platform)))
  let rows := withIndex
    (fun p i => DimDeviceRow.mk p.1 p.2 (i : Int)) dedup 0
  { platform := some UNKNOWN_VALUE, device_type := "unknown",
    device_id := UNKNOWN_ID } :: rows

/-- Row of `dim_track` (columns after the `rename`). -/
structure DimTrackRow where
  spotify_track_uri : String
  track_name : Option String
  artist_name : Option String
  album_name : Option String
  track_id : Int
deriving DecidableEq

/-- `create_dim_track` (`src/ReadProcess.py:154-187`): keep rows with a
track URI, dedup on the URI, assign `track_id`, prepend the unknown row. -/
def create_dim_track (df : List Record) : List DimTrackRow :=
  let music := df.filterMap (fun r =>
    r.spotify_track_uri.map (fun u =>
      (u, r.master_metadata_track_name,
       r.master_metadata_album_artist_name,
       r.master_metadata_album_album_name)))
  let dedup := dedupKeyed (fun p => p.1) music
  let rows := withIndex
    (fun (p : String × Option String × Option String × Option String) i =>
      DimTrackRow.mk p.1 p.2.1 p.2.2.1 p.2.2.2 (i : Int))
    dedup 0
  { spotify_track_uri := UNKNOWN_VALUE,
    track_name := some "Non-Music Content",
    artist_name := some "N/A", album_name := some "N/A",
    track_id := UNKNOWN_ID } :: rows

/-- Row of `dim_episode` (columns after the `rename`). -/
structure DimEpisodeRow where
  spotify_episode_uri : String
  episode_name : Option String
  show_name : Option String
  episode_id : Int
deriving DecidableEq

/-- `create_dim_episode` (`src/ReadProcess.py:189-219`). -/
def create_dim_episode (df : List Record) : List DimEpisodeRow :=
  let podcast := df.filterMap (fun r =>
    r.spotify_episode_uri.map (fun u =>
      (u, r.episode_name, r.episode_show_name)))
  let dedup := dedupKeyed (fun p => p.1) podcast
  let rows := withIndex
    (fun (p : String × Option String × Option String) i =>
      DimEpisodeRow.mk p.1 p.2.1 p.2.2 (i : Int)) dedup 0
  { spotify_episode_uri := UNKNOWN_VALUE,
    episode_name := some "Non-Podcast Content",
    show_name := some "N/A", episode_id := UNKNOWN_ID } :: rows

/-- Row of `dim_location`. -/
structure DimLocationRow where
  ip_addr : Option String
  conn_country : Option String
  location_id : Int
deriving DecidableEq

/-- `create_dim_location` (`src/ReadProcess.py:221-238`). -/
def create_dim_location (df : List Record) : List DimLocationRow :=
  let dedup := dedupKeyed (fun p => p.1)
    (df.map (fun r => (r.ip_addr, r.conn_country)))
  let rows := withIndex
    (fun p i => DimLocationRow.mk p.1 p.2 (i : Int)) dedup 0
  { ip_addr := some "0.0.0.0", conn_country := some "XX",
    location_id := UNKNOWN_ID } :: rows

/-- `df.merge(dim[[key, id]], on=key, how="left")`: every left row is
kept; it is paired with the id of every right row whose key equals its
own, or with `none` when no right row matches. -/
def leftMergeId (df : List α) (key : α → Option String)
    (dim : List (Option String × Int)) : List (α × Option Int) :=
  df.flatMap (fun r =>
    let ms := dim.filter (fun d => decide (d.1 = key r))
    if ms.isEmpty then [(r, none)]
    else ms.map (fun d => (r, some d.2)))

/-- An input row after the four surrogate-key merges of
`src/ReadProcess.py:297-300`. -/
structure MergedRecord where
  r : Record
  device_id : Option Int
  track_id : Option Int
  episode_id : Option Int
  location_id : Option Int
deriving DecidableEq

/-- The four left merges of `main` (`src/ReadProcess.py:297-300`), in
source order: device, track, episode, location. -/
def merge_dims (df : List Record)
    (dim_device : List DimDeviceRow) (dim_track : List DimTrackRow)
    (dim_episode : List DimEpisodeRow)
    (dim_location : List DimLocationRow) : List MergedRecord :=
  let s1 := leftMergeId df (fun r => r.platform)
    (dim_device.map (fun d => (d.platform, d.device_id)))
  let s2 := leftMergeId s1 (fun p => p.1.spotify_track_uri)
    (dim_track.map (fun d => (some d.spotify_track_uri, d.track_id)))
  let s3 := leftMergeId s2 (fun p => p.1.1.spotify_episode_uri)
    (dim_episode.map (fun d => (some d.spotify_episode_uri, d.episode_id)))
  let s4 := leftMergeId s3 (fun p => p.1.1.1.ip_addr)
    (dim_location.map (fun d => (d.ip_addr, d.location_id)))
  s4.map (fun q =>
    { r := q.1.1.1.1, device_id := q.1.1.1.2, track_id := q.1.1.2,
      episode_id := q.1.2, location_id := q.2 })

/-- Row of the fact table after foreign-key filling and flag coercion. -/
structure FactRow where
  event_id : Nat
  date_id : String
  track_id : Int
  episode_id : Int
  device_id : Int
  location_id : Int
  ms_played : Int
  skipped : Bool
  shuffle : Bool
  offline : Bool
  incognito_mode : Bool
deriving DecidableEq

/-- `pd.to_numeric(col, errors="coerce").fillna(0).astype(bool)`: a
missing or unparseable flag becomes 0, then truthiness is taken. -/
def toBoolFlag (v : Option Int) : Bool := decide (v.getD 0 ≠ 0)

/-- Body of the projection in `create_fact_table`
(`src/ReadProcess.py:244-275`): recompute `date_id` from the timestamp,
fill missing foreign keys with `UNKNOWN_ID`, coerce the flags. -/
def mkFactRow (m : MergedRecord) : FactRow :=
  { event_id := m.r.event_id
    date_id := m.r.ts.dateId
    track_id := m.track_id.getD UNKNOWN_ID
    episode_id := m.episode_id.getD UNKNOWN_ID
    device_id := m.device_id.getD UNKNOWN_ID
    location_id := m.location_id.getD UNKNOWN_ID
    ms_played := m.r.ms_played
    skipped := toBoolFlag m.r.skipped
    shuffle := toBoolFlag m.r.shuffle
    offline := toBoolFlag m.r.offline
    incognito_mode := toBoolFlag m.r.incognito_mode }

/-- `create_fact_table` on the fully merged dataset. -/
def create_fact_table (df : List MergedRecord) : List FactRow :=
  df.map mkFactRow

/-- The merge section of `main` applied to the dimensions built from the
same cleaned dataset (`src/ReadProcess.py:287-300`). -/
def etl_merged (df : List Record) : List MergedRecord :=
  merge_dims df (create_dim_device df) (create_dim_track df)
    (create_dim_episode df) (create_dim_location df)

/-- The fact table produced by `main` from a cleaned dataset
(`src/ReadProcess.py:287-303`). -/
def etl_fact (df : List Record) : List FactRow :=
  create_fact_table (etl_merged df)

/-- Result of `city_reader.city(ip)`: the record fields read by the
enrichment loop, each of which may itself be absent. -/
structure CityRes where
  cityName : Option String
  subdivisionName : Option String
  latitude : Option Rat
  longitude : Option Rat
deriving DecidableEq

/-- Result of `asn_reader.asn(ip)`. -/
structure AsnRes where
  org : Option String
deriving DecidableEq

/-- Result of `country_reader.country(ip)`. -/
structure CountryRes where
  countryName : Option String
deriving DecidableEq

/-- The three opened GeoLite2 readers; `none` models the per-address
`AddressNotFoundError` raised by a reader. -/
structure GeoDbs where
  city : String → Option CityRes
  asn : String → Option AsnRes
  country : String → Option CountryRes

/-- The placeholder addresses the enricher filters out
(`src/localization.py:26`). -/
def placeholderIps : List String := ["0.0.0.0", "unknown", "Unknown"]

/-- `dim_location[~dim_location['ip_addr'].isin([...])]['ip_addr'].unique()`
(`src/localization.py:26`): the distinct non-placeholder ip values, in
first-seen order (a null ip is not in the placeholder list, so it is
kept by the filter and appears once). -/
def uniqueIps (dim : List DimLocationRow) : List (Option String) :=
  dedupKeyed id
    ((dim.filter (fun r =>
      match r.ip_addr with
      | some s => decide (s ∉ placeholderIps)
      | none => true)).map (fun r => r.ip_addr))

/-- One successfully built row of `geo_data`
(`src/localization.py:44-52`). -/
structure GeoRow where
  ip_addr : String
  city : Option String
  country : Option String
  region : Option String
  latitude : Option Rat
  longitude : Option Rat
  isp : Option String
deriving DecidableEq

/-- One iteration of the per-IP loop (`src/localization.py:35-56`): the
row is appended only when all three reader calls succeed; any raised
lookup error (including a null ip reaching a reader) skips the ip. -/
def lookupIp (g : GeoDbs) (ip : Option String) : Option GeoRow :=
  match ip with
  | none => none
  | some s =>
    match g.city s, g.asn s, g.country s with
    | some c, some a, some co =>
      some { ip_addr := s, city := c.cityName, country := co.countryName,
             region := c.subdivisionName, latitude := c.latitude,
             longitude := c.longitude, isp := a.org }
    | _, _, _ => none

/-- The whole per-IP loop: `geo_data` as a list. -/
def build_geo_data (g : GeoDbs) (ips : List (Option String)) : List GeoRow :=
  ips.filterMap (lookupIp g)

/-- A row of `pd.merge(dim_location, df_geo, on="ip_addr", how="left")`
before the fill step: the enrichment columns are still nullable. -/
structure MergedLocationRow where
  ip_addr : Option String
  conn_country : Option String
  location_id : Int
  city : Option String
  country : Option String
  region : Option String
  latitude : Option Rat
  longitude : Option Rat
  isp : Option String
deriving DecidableEq

/-- `pd.merge(dim_location, df_geo, on="ip_addr", how="left")`
(`src/localization.py:66`) for a `df_geo` that carries the `ip_addr`
column, i.e. built from a nonempty `geo_data`; when `geo_data` is
empty, `pd.DataFrame([])` has no columns at all and the real merge
raises KeyError — that case is the error outcome of `enrich_table`
below. -/
def merge_geo (dim : List DimLocationRow) (geo : List GeoRow) :
    List MergedLocationRow :=
  dim.flatMap (fun r =>
    let ms := geo.filter (fun gr => decide (r.ip_addr = some gr.ip_addr))
    if ms.isEmpty then
      [{ ip_addr := r.ip_addr, conn_country := r.conn_country,
         location_id := r.location_id, city := none, country := none,
         region := none, latitude := none, longitude := none, isp := none }]
    else ms.map (fun gr =>
      { ip_addr := r.ip_addr, conn_country := r.conn_country,
        location_id := r.location_id, city := gr.city,
        country := gr.country, region := gr.region,
        latitude := gr.latitude, longitude := gr.longitude,
        isp := gr.isp }))

/-- A row of the persisted enriched location table. After the fill step
`city`, `region`, `isp`, `latitude`, `longitude` are non-null; the code
applies no fill to `country`, which therefore stays nullable. -/
structure EnrichedLocationRow where
  ip_addr : Option String
  conn_country : Option String
  location_id : Int
  city : String
  country : Option String
  region : String
  latitude : Rat
  longitude : Rat
  isp : String
deriving DecidableEq

/-- The fill step (`src/localization.py:69-74`): `fillna("Unknown")` on
`city`, `region`, `isp` and `fillna(0)` on `latitude`, `longitude`;
no other column is touched. -/
def fill_defaults (m : MergedLocationRow) : EnrichedLocationRow :=
  { ip_addr := m.ip_addr, conn_country := m.conn_country,
    location_id := m.location_id,
    city := m.city.getD "Unknown", country := m.country,
    region := m.region.getD "Unknown",
    latitude := m.latitude.getD 0, longitude := m.longitude.getD 0,
    isp := m.isp.getD "Unknown" }

/-- The merged-and-filled rows of an enrichment run that reaches the
fill step (`src/localization.py:63-74`): unique non-placeholder ips,
per-IP lookups, left merge, fill. Only meaningful when at least one ip
was enriched, so that `pd.DataFrame(geo_data)` has the `ip_addr`
column and the merge executes. -/
def enrich_rows (dim : List DimLocationRow) (g : GeoDbs) :
    List EnrichedLocationRow :=
  (merge_geo dim (build_geo_data g (uniqueIps dim))).map fill_defaults

/-- The in-memory enrichment transform of `enrich_location_dimension`
(`src/localization.py:24-74`). When the per-IP loop enriches no ip at
all, `geo_data` is empty, `pd.DataFrame([])` at line 64 has no
columns, and `pd.merge(..., on="ip_addr")` at line 66 raises an
uncaught KeyError that aborts the run — the error outcome here.
Otherwise the merged and filled table is produced. -/
def enrich_table (dim : List DimLocationRow) (g : GeoDbs) :
    Except String (List EnrichedLocationRow) :=
  if (build_geo_data g (uniqueIps dim)).isEmpty then
    .error "KeyError: ip_addr"
  else .ok (enrich_rows dim g)

/-- The persisted artifacts of the pipeline, one optional content per
parquet file (`none` = the file does not exist). -/
structure FileStore where
  dim_date : Option (List DimDateRow)
  dim_device : Option (List DimDeviceRow)
  dim_track : Option (List DimTrackRow)
  dim_episode : Option (List DimEpisodeRow)
  dim_location : Option (List DimLocationRow)
  fact_table : Option (List FactRow)
  dim_location_enriched : Option (List EnrichedLocationRow)

/-- `enrich_location_dimension` (`src/localization.py:10-83`) as a store
transition: fail when the persisted stage-1 location dimension is
absent, fail when the GeoLite2 databases cannot be opened, fail with
the KeyError of the merge step when no ip at all was enriched, and
otherwise write only the enriched artifact. -/
def enrich_location_dimension (store : FileStore) (dbs : Option GeoDbs) :
    Except String FileStore :=
  match store.dim_location with
  | none => .error ("Error: No se encontró " ++ "dim_location.parquet")
  | some dim =>
    match dbs with
    | none => .error "Bases GeoLite2 no encontradas"
    | some g =>
      match enrich_table dim g with
      | .error e => .error e
      | .ok t => .ok { store with dim_location_enriched := some t }

/-- The stage-2 block of `main.py:62-67`: run the enrichment; on any
error log a warning and continue with the store unchanged. -/
def run_stage2 (store : FileStore) (dbs : Option GeoDbs) :
    FileStore × List String :=
  match enrich_location_dimension store dbs with
  | .ok s => (s, [])
  | .error e => (store, ["No se pudo enriquecer datos geográficos: " ++ e])

/-- `suf.isSuffixOf s` on strings (glob `*.json` matches names ending in
`.json`). -/
def strEndsWith (s suf : String) : Bool := suf.data.isSuffixOf s.data

/-- A raw event record inside an input file: the timestamp is still the
exported string; the remaining fields pass through the loader untouched. -/
structure RawRecord where
  ts_raw : String
  payload : List (String × Option String)
deriving DecidableEq

/-- One file of the input directory. -/
structure JsonFile where
  name : String
  records : List RawRecord
deriving DecidableEq

/-- A loaded record: the timestamp has been parsed to a date-time value
(`pd.read_json(f, convert_dates=["ts"])`). -/
structure LoadedRecord where
  ts : Timestamp
  payload : List (String × Option String)
deriving DecidableEq

/-- `extract_json_files` (`src/ReadProcess.py:15-45`): the directory is
either absent (`none`) or a list of files; `path.glob("*.json")` keeps
the files whose name ends in `.json`; `parse_ts` is the timestamp
parsing applied by `pd.read_json(..., convert_dates=["ts"])`. -/
def extract_json_files (resolvedPath : String)
    (dir : Option (List JsonFile)) (parse_ts : String → Timestamp) :
    Except String (List LoadedRecord) :=
  match dir with
  | none => .error ("No existe la ruta: " ++ resolvedPath)
  | some files =>
    let jsons := files.filter (fun f => strEndsWith f.name ".json")
    if jsons.isEmpty then
      .error ("No se encontraron JSON en: " ++ resolvedPath)
    else
      .ok (jsons.flatMap (fun f =>
        f.records.map (fun r =>
          { ts := parse_ts r.ts_raw, payload := r.payload })))

/-- `config.AUDIOBOOK_COLUMNS_PATTERN` (`src/config.py:64`). -/
def AUDIOBOOK_COLUMNS_PATTERN : String := "audiobook"

/-- The loader output as seen by `clean_data`: a column list and rows of
named cells (`none` = NaN). -/
structure RawFrame where
  columns : List String
  rows : List (List (String × Option String))
deriving DecidableEq

/-- The cleaner output: possibly column-reduced rows, each paired with
its assigned `event_id`. -/
structure CleanFrame where
  columns : List String
  rows : List (List (String × Option String) × Nat)
deriving DecidableEq

/-- `[col for col in df.columns if AUDIOBOOK_COLUMNS_PATTERN in col]`. -/
def audiobookCols (cols : List String) : List String :=
  cols.filter (fun c => strContains c AUDIOBOOK_COLUMNS_PATTERN)

/-- `df[audiobook_cols].isnull().all().all()`: every cell of the
audiobook column group is missing, on every row. -/
def audiobookAllNull (abook : List String)
    (rows : List (List (String × Option String))) : Bool :=
  rows.all (fun row =>
    row.all (fun cell => !(abook.contains cell.1) || cell.2.isNone))

/-- `clean_data` (`src/ReadProcess.py:68-85`): drop the audiobook column
group when it is nonempty and entirely null, then
`reset_index(drop=True)` and `df["event_id"] = df.index`. -/
def clean_data (df : RawFrame) : CleanFrame :=
  let abook := audiobookCols df.columns
  let doDrop := !abook.isEmpty && audiobookAllNull abook df.rows
  let cols := if doDrop then
      df.columns.filter (fun c => !(abook.contains c))
    else df.columns
  let rows := if doDrop then
      df.rows.map (fun row =>
        row.filter (fun cell => !(abook.contains cell.1)))
    else df.rows
  { columns := cols ++ ["event_id"],
    rows := withIndex (fun row i => (row, i)) rows 0 }

/-!
Object-level semantics for the frame property: each pandas DataFrame
variable is a reference (index) into a store of table objects. A call
that returns a fresh DataFrame (`copy`, column projection,
`drop_duplicates`, `reset_index`, `rename`, `merge`, `pd.concat`,
`pd.DataFrame(...)`, boolean-mask selection) allocates a new cell; an
in-place column assignment `obj["c"] = ...` mutates the cell its
receiver refers to. The content transformations are irrelevant to the
frame property and are taken as parameters; what is transcribed from the
source is which statements allocate and which mutate, statement by
statement.
-/

/-- A store of live table objects. -/
abbrev Store (τ : Type) := List τ

/-- Allocate a fresh object, returning the new store and its reference. -/
def salloc (s : Store τ) (v : τ) : Store τ × Nat := (s ++ [v], s.length)

/-- Read the object a reference points to. -/
def sread [Inhabited τ] (s : Store τ) (r : Nat) : τ := s.getD r default

/-- In-place mutation of the object a reference points to
(`obj["col"] = ...`). -/
def smut [Inhabited τ] (s : Store τ) (r : Nat) (f : τ → τ) : Store τ :=
  s.set r (f (sread s r))

/-- `clean_data` (`src/ReadProcess.py:68-85`) at object granularity:
`df = df.copy()`; conditionally `df = df.drop(columns=...)` (fresh);
`df = df.reset_index(drop=True)` (fresh); `df["event_id"] = df.index`
(mutation of the fresh object). Returns the final reference. -/
def clean_data_prog [Inhabited τ] (fcopy fdrop freset fsetid : τ → τ)
    (needDrop : τ → Bool) (s : Store τ) (df : Nat) : Store τ × Nat :=
  let a1 := salloc s (fcopy (sread s df))
  let a2 := if needDrop (sread a1.1 a1.2) then
      salloc a1.1 (fdrop (sread a1.1 a1.2))
    else a1
  let a3 := salloc a2.1 (freset (sread a2.1 a2.2))
  (smut a3.1 a3.2 fsetid, a3.2)

/-- `create_dim_date` (`src/ReadProcess.py:91-114`): `temp = df.copy()`;
six column assignments mutating `temp`; the final projection chain
allocates `dim_date`. -/
def create_dim_date_prog [Inhabited τ]
    (fcopy f1 f2 f3 f4 f5 f6 fproj : τ → τ)
    (s : Store τ) (df : Nat) : Store τ × Nat :=
  let a1 := salloc s (fcopy (sread s df))
  let s1 := smut a1.1 a1.2 f1
  let s2 := smut s1 a1.2 f2
  let s3 := smut s2 a1.2 f3
  let s4 := smut s3 a1.2 f4
  let s5 := smut s4 a1.2 f5
  let s6 := smut s5 a1.2 f6
  salloc s6 (fproj (sread s6 a1.2))

/-- `create_dim_device` (`src/ReadProcess.py:132-152`):
`temp = df.copy()`; `temp["device_type"] = ...` (mutation); the
dedup/projection chain allocates `dim_device`;
`dim_device["device_id"] = dim_device.index` (mutation); the unknown
one-row frame is a fresh allocation; `pd.concat` allocates the result. -/
def create_dim_device_prog [Inhabited τ]
    (fcopy ftype fproj fsetid : τ → τ) (unknownRow : τ)
    (fconcat : τ → τ → τ) (s : Store τ) (df : Nat) : Store τ × Nat :=
  let a1 := salloc s (fcopy (sread s df))
  let s1 := smut a1.1 a1.2 ftype
  let a2 := salloc s1 (fproj (sread s1 a1.2))
  let s2 := smut a2.1 a2.2 fsetid
  let a3 := salloc s2 unknownRow
  salloc a3.1 (fconcat (sread a3.1 a3.2) (sread a3.1 a2.2))

/-- `create_dim_track` (`src/ReadProcess.py:154-187`): the mask
selection `df[df[...].notna()].copy()` allocates `music_df`; the
dedup/projection chain allocates; `rename` allocates and rebinds;
`dim_track["track_id"] = dim_track.index` mutates; the unknown row and
the `pd.concat` result are fresh. `create_dim_episode`
(`src/ReadProcess.py:189-219`) has the same statement shape. -/
def create_dim_track_prog [Inhabited τ]
    (ffilter fproj frename fsetid : τ → τ) (unknownRow : τ)
    (fconcat : τ → τ → τ) (s : Store τ) (df : Nat) : Store τ × Nat :=
  let a1 := salloc s (ffilter (sread s df))
  let a2 := salloc a1.1 (fproj (sread a1.1 a1.2))
  let a3 := salloc a2.1 (frename (sread a2.1 a2.2))
  let s1 := smut a3.1 a3.2 fsetid
  let a4 := salloc s1 unknownRow
  salloc a4.1 (fconcat (sread a4.1 a4.2) (sread a4.1 a3.2))

/-- `create_dim_episode` (`src/ReadProcess.py:189-219`): statement by
statement the same allocation/mutation shape as `create_dim_track`. -/
def create_dim_episode_prog [Inhabited τ]
    (ffilter fproj frename fsetid : τ → τ) (unknownRow : τ)
    (fconcat : τ → τ → τ) (s : Store τ) (df : Nat) : Store τ × Nat :=
  let a1 := salloc s (ffilter (sread s df))
  let a2 := salloc a1.1 (fproj (sread a1.1 a1.2))
  let a3 := salloc a2.1 (frename (sread a2.1 a2.2))
  let s1 := smut a3.1 a3.2 fsetid
  let a4 := salloc s1 unknownRow
  salloc a4.1 (fconcat (sread a4.1 a4.2) (sread a4.1 a3.2))

/-- `create_dim_location` (`src/ReadProcess.py:221-238`): the
dedup/projection chain allocates directly from the input (no copy);
`dim_location["location_id"] = dim_location.index` mutates the fresh
object; unknown row and `pd.concat` result are fresh. -/
def create_dim_location_prog [Inhabited τ]
    (fproj fsetid : τ → τ) (unknownRow : τ) (fconcat : τ → τ → τ)
    (s : Store τ) (df : Nat) : Store τ × Nat :=
  let a1 := salloc s (fproj (sread s df))
  let s1 := smut a1.1 a1.2 fsetid
  let a2 := salloc s1 unknownRow
  salloc a2.1 (fconcat (sread a2.1 a2.2) (sread a2.1 a1.2))

/-- `create_fact_table` (`src/ReadProcess.py:244-275`):
`temp = df.copy()`; `temp["date_id"] = ...` mutates; the projection
`temp[[...]].copy()` allocates `fact`; four foreign-key fills and four
flag coercions mutate `fact`. -/
def create_fact_table_prog [Inhabited τ]
    (fcopy fdate fproj ftrk fep fdev floc fb1 fb2 fb3 fb4 : τ → τ)
    (s : Store τ) (df : Nat) : Store τ × Nat :=
  let a1 := salloc s (fcopy (sread s df))
  let s1 := smut a1.1 a1.2 fdate
  let a2 := salloc s1 (fproj (sread s1 a1.2))
  let s2 := smut a2.1 a2.2 ftrk
  let s3 := smut s2 a2.2 fep
  let s4 := smut s3 a2.2 fdev
  let s5 := smut s4 a2.2 floc
  let s6 := smut s5 a2.2 fb1
  let s7 := smut s6 a2.2 fb2
  let s8 := smut s7 a2.2 fb3
  (smut s8 a2.2 fb4, a2.2)

/-! Helper lemmas about the embedding's building blocks. -/

theorem mem_of_mem_dedupGo (key : α → κ) [DecidableEq κ] (seen : List κ)
    (l : List α) (a : α) (h : a ∈ dedupGo key seen l) : a ∈ l := by
  induction l generalizing seen with
  | nil => simp [dedupGo] at h
  | cons x xs ih =>
    simp only [dedupGo] at h
    by_cases hx : key x ∈ seen
    · rw [if_pos hx] at h
      exact List.mem_cons_of_mem _ (ih _ h)
    · rw [if_neg hx] at h
      rcases List.mem_cons.mp h with h1 | h1
      · exact h1 ▸ List.mem_cons_self _ _
      · exact List.mem_cons_of_mem _ (ih _ h1)

theorem key_not_seen_of_mem_dedupGo (key : α → κ) [DecidableEq κ]
    (seen : List κ) (l : List α) (a : α) (h : a ∈ dedupGo key seen l) :
    key a ∉ seen := by
  induction l generalizing seen with
  | nil => simp [dedupGo] at h
  | cons x xs ih =>
    simp only [dedupGo] at h
    by_cases hx : key x ∈ seen
    · rw [if_pos hx] at h
      exact ih _ h
    · rw [if_neg hx] at h
      rcases List.mem_cons.mp h with h1 | h1
      · rw [h1]; exact hx
      · intro hs
        exact (ih _ h1) (List.mem_cons_of_mem _ hs)

theorem pairwise_dedupGo (key : α → κ) [DecidableEq κ] (seen : List κ)
    (l : List α) :
    (dedupGo key seen l).Pairwise (fun a b => key a ≠ key b) := by
  induction l generalizing seen with
  | nil => simp [dedupGo]
  | cons x xs ih =>
    simp only [dedupGo]
    by_cases hx : key x ∈ seen
    · rw [if_pos hx]; exact ih seen
    · rw [if_neg hx]
      refine List.Pairwise.cons ?_ (ih _)
      intro b hb he
      exact (key_not_seen_of_mem_dedupGo _ _ _ _ hb)
        (by rw [← he]; exact List.mem_cons_self _ _)

theorem pairwise_dedupKeyed (key : α → κ) [DecidableEq κ] (l : List α) :
    (dedupKeyed key l).Pairwise (fun a b => key a ≠ key b) :=
  pairwise_dedupGo key [] l

theorem mem_of_mem_dedupKeyed (key : α → κ) [DecidableEq κ] (l : List α)
    (a : α) (h : a ∈ dedupKeyed key l) : a ∈ l :=
  mem_of_mem_dedupGo key [] l a h

theorem keys_complete_dedupGo (key : α → κ) [DecidableEq κ] (seen : List κ)
    (l : List α) (a : α) (h : a ∈ l) :
    key a ∈ seen ∨ ∃ b ∈ dedupGo key seen l, key b = key a := by
  induction l generalizing seen with
  | nil => simp at h
  | cons x xs ih =>
    simp only [dedupGo]
    rcases List.mem_cons.mp h with h1 | h1
    · by_cases hx : key x ∈ seen
      · exact Or.inl (h1 ▸ hx)
      · rw [if_neg hx]
        exact Or.inr ⟨x, List.mem_cons_self _ _, (h1 ▸ rfl : key x = key a)⟩
    · by_cases hx : key x ∈ seen
      · rw [if_pos hx]; exact ih seen h1
      · rw [if_neg hx]
        rcases ih (key x :: seen) h1 with hs | ⟨b, hb, he⟩
        · rcases List.mem_cons.mp hs with he | hs
          · exact Or.inr ⟨x, List.mem_cons_self _ _, he.symm⟩
          · exact Or.inl hs
        · exact Or.inr ⟨b, List.mem_cons_of_mem _ hb, he⟩

theorem keys_complete_dedupKeyed (key : α → κ) [DecidableEq κ] (l : List α)
    (a : α) (h : a ∈ l) : ∃ b ∈ dedupKeyed key l, key b = key a := by
  rcases keys_complete_dedupGo key [] l a h with hs | hb
  · simp at hs
  · exact hb

theorem withIndex_map (f : α → Nat → β) (g : β → γ) (k : α → γ)
    (hk : ∀ a i, g (f a i) = k a) (l : List α) (n : Nat) :
    (withIndex f l n).map g = l.map k := by
  induction l generalizing n with
  | nil => rfl
  | cons x xs ih => simp [withIndex, hk, ih]

theorem length_withIndex (f : α → Nat → β) (l : List α) (n : Nat) :
    (withIndex f l n).length = l.length := by
  induction l generalizing n with
  | nil => rfl
  | cons x xs ih => simp [withIndex, ih]

theorem mem_withIndex (f : α → Nat → β) (l : List α) (n : Nat) (x : β)
    (h : x ∈ withIndex f l n) : ∃ a i, a ∈ l ∧ x = f a i := by
  induction l generalizing n with
  | nil => simp [withIndex] at h
  | cons y ys ih =>
    rcases List.mem_cons.mp h with h1 | h1
    · exact ⟨y, n, List.mem_cons_self _ _, h1⟩
    · rcases ih (n + 1) h1 with ⟨a, i, ha, he⟩
      exact ⟨a, i, List.mem_cons_of_mem _ ha, he⟩

theorem getElem?_withIndex (f : α → Nat → β) (l : List α) (n i : Nat) :
    (withIndex f l n)[i]? = l[i]?.map (fun a => f a (n + i)) := by
  induction l generalizing n i with
  | nil => simp [withIndex]
  | cons x xs ih =>
    cases i with
    | zero => simp [withIndex]
    | succ j =>
      simp only [withIndex, List.getElem?_cons_succ, ih]
      have : n + 1 + j = n + (j + 1) := by omega
      rw [this]

theorem length_filter_keyed_le_one (key : α → κ) (k : κ) (p : α → Bool)
    (l : List α) (hl : l.Pairwise (fun a b => key a ≠ key b))
    (hp : ∀ x, p x = true → key x = k) : (l.filter p).length ≤ 1 := by
  induction l with
  | nil => simp
  | cons x xs ih =>
    rcases List.pairwise_cons.mp hl with ⟨hx, hxs⟩
    by_cases hpx : p x = true
    · rw [List.filter_cons_of_pos hpx]
      have hnil : xs.filter p = [] := by
        rw [List.filter_eq_nil_iff]
        intro y hy hpy
        exact hx y hy ((hp x hpx).trans (hp y hpy).symm)
      simp [hnil]
    · rw [List.filter_cons_of_neg (by simpa using hpx)]
      exact ih hxs

theorem length_leftMergeId (df : List α) (key : α → Option String)
    (dim : List (Option String × Int))
    (h : dim.Pairwise (fun a b => a.1 ≠ b.1)) :
    (leftMergeId df key dim).length = df.length := by
  induction df with
  | nil => rfl
  | cons r rs ih =>
    simp only [leftMergeId, List.flatMap_cons] at *
    rw [List.length_append, ih]
    have hle : (dim.filter (fun d => decide (d.1 = key r))).length ≤ 1 :=
      length_filter_keyed_le_one (fun d => d.1) (key r) _ dim h
        (fun x hx => of_decide_eq_true hx)
    by_cases he : (dim.filter (fun d => decide (d.1 = key r))).isEmpty
    · rw [if_pos he]; simp [Nat.add_comm]
    · rw [if_neg he]
      have hpos : 0 < (dim.filter (fun d => decide (d.1 = key r))).length := by
        cases hq : dim.filter (fun d => decide (d.1 = key r)) with
        | nil => rw [hq] at he; simp at he
        | cons a as => simp
      rw [List.length_map]
      simp only [List.length_cons]
      omega

theorem mem_leftMergeId (df : List α) (key : α → Option String)
    (dim : List (Option String × Int)) (x : α × Option Int)
    (h : x ∈ leftMergeId df key dim) :
    x.1 ∈ df ∧
      (x.2 = none ∨ ∃ d ∈ dim, x.2 = some d.2 ∧ d.1 = key x.1) := by
  rcases List.mem_flatMap.mp h with ⟨r, hr, hx⟩
  by_cases he : (dim.filter (fun d => decide (d.1 = key r))).isEmpty
  · rw [if_pos he] at hx
    rcases List.mem_singleton.mp hx with rfl
    exact ⟨hr, Or.inl rfl⟩
  · rw [if_neg he] at hx
    rcases List.mem_map.mp hx with ⟨d, hd, rfl⟩
    rcases List.mem_filter.mp hd with ⟨hdim, hkey⟩
    exact ⟨hr, Or.inr ⟨d, hdim, rfl, of_decide_eq_true hkey⟩⟩

theorem none_id_of_no_match (df : List α) (key : α → Option String)
    (dim : List (Option String × Int)) (x : α × Option Int)
    (h : x ∈ leftMergeId df key dim)
    (hno : ∀ d ∈ dim, d.1 ≠ key x.1) : x.2 = none := by
  rcases (mem_leftMergeId df key dim x h).2 with h2 | ⟨d, hd, _, he⟩
  · exact h2
  · exact absurd he (hno d hd)

/-- Natural-key uniqueness of a table under a key projection. -/
def KeysUnique (l : List α) (key : α → κ) : Prop :=
  l.Pairwise (fun a b => key a ≠ key b)

theorem sentinel_table_spec [DecidableEq κ]
    (mk : α → Nat → β) (keyB : β → κ) (keyA : α → κ) (idB : β → Int)
    (hkey : ∀ a i, keyB (mk a i) = keyA a)
    (hid : ∀ a i, idB (mk a i) = (i : Int))
    (sent : β) (hsentid : idB sent = UNKNOWN_ID)
    (base : List α) (hsent : ∀ a ∈ base, keyA a ≠ keyB sent) :
    (sent :: withIndex mk (dedupKeyed keyA base) 0).countP
        (fun b => decide (idB b = UNKNOWN_ID)) = 1 ∧
    KeysUnique (sent :: withIndex mk (dedupKeyed keyA base) 0) keyB := by
  constructor
  · rw [List.countP_cons]
    have h0 : (withIndex mk (dedupKeyed keyA base) 0).countP
        (fun b => decide (idB b = UNKNOWN_ID)) = 0 := by
      rw [List.countP_eq_zero]
      intro b hb
      rcases mem_withIndex _ _ _ _ hb with ⟨a, i, _, rfl⟩
      rw [hid]
      simp only [decide_eq_true_eq, UNKNOWN_ID]
      intro hbad
      omega
    rw [h0, hsentid]
    simp [UNKNOWN_ID]
  · refine List.Pairwise.cons ?_ ?_
    · intro b hb he
      rcases mem_withIndex _ _ _ _ hb with ⟨a, i, ha, rfl⟩
      rw [hkey] at he
      exact hsent a
        (mem_of_mem_dedupKeyed _ _ _ (by exact ha)) he.symm
    · have hded := pairwise_dedupKeyed keyA base
      have hmap : (withIndex mk (dedupKeyed keyA base) 0).map keyB =
          (dedupKeyed keyA base).map keyA :=
        withIndex_map mk keyB keyA hkey _ 0
      have hnodup : ((withIndex mk (dedupKeyed keyA base) 0).map keyB).Pairwise
          (fun a b => a ≠ b) := by
        rw [hmap, List.pairwise_map]
        exact hded
      exact List.pairwise_map.mp hnodup

/-- Key pairwise-distinctness of each real dimension table, under the
assumption that the sentinel's natural-key value does not occur in the
data (spec §3's no-collision requirement). -/
theorem dim_device_keys (df : List Record)
    (h : ∀ r ∈ df, r.platform ≠ some UNKNOWN_VALUE) :
    (create_dim_device df).countP
        (fun b => decide (b.device_id = UNKNOWN_ID)) = 1 ∧
    KeysUnique (create_dim_device df) (fun b => b.platform) := by
  refine sentinel_table_spec
    (fun (p : Option String × String) i => DimDeviceRow.mk p.1 p.2 (i : Int))
    (fun b => b.platform) (fun p => p.1) (fun b => b.device_id)
    (fun a i => rfl) (fun a i => rfl) _ rfl _ ?_
  intro a ha
  rcases List.mem_map.mp ha with ⟨r, hr, rfl⟩
  exact h r hr

theorem dim_track_keys (df : List Record)
    (h : ∀ r ∈ df, r.spotify_track_uri ≠ some UNKNOWN_VALUE) :
    (create_dim_track df).countP
        (fun b => decide (b.track_id = UNKNOWN_ID)) = 1 ∧
    KeysUnique (create_dim_track df) (fun b => b.spotify_track_uri) := by
  refine sentinel_table_spec
    (fun (p : String × Option String × Option String × Option String) i =>
      DimTrackRow.mk p.1 p.2.1 p.2.2.1 p.2.2.2 (i : Int))
    (fun b => b.spotify_track_uri) (fun p => p.1) (fun b => b.track_id)
    (fun a i => rfl) (fun a i => rfl) _ rfl _ ?_
  intro a ha
  rcases List.mem_filterMap.mp ha with ⟨r, hr, hmap⟩
  intro he
  rcases Option.map_eq_some'.mp hmap with ⟨u, hu, hp⟩
  apply h r hr
  have ha1 : Prod.fst a = u := by rw [← hp]
  have he2 : Prod.fst a = UNKNOWN_VALUE := he
  rw [hu, ← ha1, he2]

theorem dim_episode_keys (df : List Record)
    (h : ∀ r ∈ df, r.spotify_episode_uri ≠ some UNKNOWN_VALUE) :
    (create_dim_episode df).countP
        (fun b => decide (b.episode_id = UNKNOWN_ID)) = 1 ∧
    KeysUnique (create_dim_episode df) (fun b => b.spotify_episode_uri) := by
  refine sentinel_table_spec
    (fun (p : String × Option String × Option String) i =>
      DimEpisodeRow.mk p.1 p.2.1 p.2.2 (i : Int))
    (fun b => b.spotify_episode_uri) (fun p => p.1) (fun b => b.episode_id)
    (fun a i => rfl) (fun a i => rfl) _ rfl _ ?_
  intro a ha
  rcases List.mem_filterMap.mp ha with ⟨r, hr, hmap⟩
  intro he
  rcases Option.map_eq_some'.mp hmap with ⟨u, hu, hp⟩
  apply h r hr
  have ha1 : Prod.fst a = u := by rw [← hp]
  have he2 : Prod.fst a = UNKNOWN_VALUE := he
  rw [hu, ← ha1, he2]

theorem dim_location_keys (df : List Record)
    (h : ∀ r ∈ df, r.ip_addr ≠ some "0.0.0.0") :
    (create_dim_location df).countP
        (fun b => decide (b.location_id = UNKNOWN_ID)) = 1 ∧
    KeysUnique (create_dim_location df) (fun b => b.ip_addr) := by
  refine sentinel_table_spec
    (fun (p : Option String × Option String) i => DimLocationRow.mk p.1 p.2 (i : Int))
    (fun b => b.ip_addr) (fun p => p.1) (fun b => b.location_id)
    (fun a i => rfl) (fun a i => rfl) _ rfl _ ?_
  intro a ha
  rcases List.mem_map.mp ha with ⟨r, hr, rfl⟩
  exact h r hr

theorem dim_date_keys (df : List Record) :
    KeysUnique (create_dim_date df) (fun b => b.date_id) :=
  pairwise_dedupKeyed _ _

theorem dim_date_rows_from_data (df : List Record) (row : DimDateRow)
    (h : row ∈ create_dim_date df) : ∃ r ∈ df, row = dimDateRowOf r := by
  have hm := mem_of_mem_dedupKeyed _ _ _ h
  rcases List.mem_map.mp hm with ⟨r, hr, rfl⟩
  exact ⟨r, hr, rfl⟩

/-- Spec §3's no-collision requirement: the sentinel natural-key values
(`"Unknown"` for platform and URIs, `"0.0.0.0"` for the ip) do not occur
as data values. -/
def NoSentinelCollision (df : List Record) : Prop :=
  (∀ r ∈ df, r.platform ≠ some UNKNOWN_VALUE) ∧
  (∀ r ∈ df, r.spotify_track_uri ≠ some UNKNOWN_VALUE) ∧
  (∀ r ∈ df, r.spotify_episode_uri ≠ some UNKNOWN_VALUE) ∧
  (∀ r ∈ df, r.ip_addr ≠ some "0.0.0.0")

/-- The amended dimension-table invariant: the four sentinel-carrying
dimensions have unique natural keys and exactly one `-1` row, placed
first; `dim_date` has unique natural keys and consists solely of
projections of data rows (no reserved row). -/
def DimTablesOk (df : List Record) : Prop :=
  (KeysUnique (create_dim_date df) (fun b => b.date_id) ∧
    ∀ row ∈ create_dim_date df, ∃ r ∈ df, row = dimDateRowOf r) ∧
  ((create_dim_device df).head? = some
      { platform := some UNKNOWN_VALUE, device_type := "unknown",
        device_id := UNKNOWN_ID } ∧
    (create_dim_device df).countP
      (fun b => decide (b.device_id = UNKNOWN_ID)) = 1 ∧
    KeysUnique (create_dim_device df) (fun b => b.platform)) ∧
  ((create_dim_track df).head? = some
      { spotify_track_uri := UNKNOWN_VALUE,
        track_name := some "Non-Music Content",
        artist_name := some "N/A", album_name := some "N/A",
        track_id := UNKNOWN_ID } ∧
    (create_dim_track df).countP
      (fun b => decide (b.track_id = UNKNOWN_ID)) = 1 ∧
    KeysUnique (create_dim_track df) (fun b => b.spotify_track_uri)) ∧
  ((create_dim_episode df).head? = some
      { spotify_episode_uri := UNKNOWN_VALUE,
        episode_name := some "Non-Podcast Content",
        show_name := some "N/A", episode_id := UNKNOWN_ID } ∧
    (create_dim_episode df).countP
      (fun b => decide (b.episode_id = UNKNOWN_ID)) = 1 ∧
    KeysUnique (create_dim_episode df) (fun b => b.spotify_episode_uri)) ∧
  ((create_dim_location df).head? = some
      { ip_addr := some "0.0.0.0", conn_country := some "XX",
        location_id := UNKNOWN_ID } ∧
    (create_dim_location df).countP
      (fun b => decide (b.location_id = UNKNOWN_ID)) = 1 ∧
    KeysUnique (create_dim_location df) (fun b => b.ip_addr))

/-- C1 (amended): for device, track, episode and location the builders
prepend exactly one reserved `-1` row before the data rows and keep
natural keys unique (given spec §3's requirement that sentinel key
values do not occur in the data); `dim_date` keeps its natural key
unique but carries no reserved row at all — every one of its rows is
the projection of a data row. -/
theorem dimension_tables_sentinel_unique (df : List Record)
    (h : NoSentinelCollision df) : DimTablesOk df := by
  obtain ⟨hplat, htrack, hep, hip⟩ := h
  refine ⟨⟨dim_date_keys df, fun row hrow => dim_date_rows_from_data df row hrow⟩,
    ⟨rfl, ?_, ?_⟩, ⟨rfl, ?_, ?_⟩, ⟨rfl, ?_, ?_⟩, ⟨rfl, ?_, ?_⟩⟩
  · exact (dim_device_keys df hplat).1
  · exact (dim_device_keys df hplat).2
  · exact (dim_track_keys df htrack).1
  · exact (dim_track_keys df htrack).2
  · exact (dim_episode_keys df hep).1
  · exact (dim_episode_keys df hep).2
  · exact (dim_location_keys df hip).1
  · exact (dim_location_keys df hip).2

/-- A concrete well-formed event row used by several concrete instances. -/
def recW : Record :=
  { ts := { year := 2024, month := 1, day := 5, hour := 12 }
    platform := some "iOS 16"
    spotify_track_uri := some "spotify:track:abc"
    master_metadata_track_name := some "Song A"
    master_metadata_album_artist_name := some "Artist A"
    master_metadata_album_album_name := some "Album A"
    spotify_episode_uri := none
    episode_name := none
    episode_show_name := none
    ip_addr := some "8.8.8.8"
    conn_country := some "ES"
    ms_played := 1000
    skipped := some 0
    shuffle := some 1
    offline := none
    incognito_mode := some 0
    event_id := 0 }

/-- C1 witness: the amended invariant holds on a concrete dataset whose
values do not collide with the sentinels. -/
theorem dimension_tables_sentinel_unique_witness :
    NoSentinelCollision [recW] ∧ DimTablesOk [recW] :=
  ⟨⟨by decide, by decide, by decide, by decide⟩,
    dimension_tables_sentinel_unique [recW]
      ⟨by decide, by decide, by decide, by decide⟩⟩

/-- C1 counterexample to the claim as stated: on a one-event dataset the
date dimension consists of exactly the single projected data row, so it
does not carry any reserved row with surrogate key `-1` (its key column
`date_id` holds the hour string, never `-1`). -/
theorem dim_date_has_no_sentinel_row :
    (create_dim_date [recW]).length = 1 ∧
    create_dim_date [recW] = [dimDateRowOf recW] ∧
    (create_dim_date [recW]).countP
      (fun b => decide (b.date_id = "-1")) = 0 := by
  refine ⟨rfl, rfl, ?_⟩
  decide

/-- C5: device classification is a total deterministic function of the
platform value: its result is always one of the five categories, a
missing platform yields `"unknown"`, and otherwise the case-insensitive
substring rules apply in precedence order (android/ios, then
windows/mac, then web, else other). -/
theorem classify_device_spec :
    (∀ p : Option String, classify_device p ∈
      (["mobile", "desktop", "web", "other", "unknown"] : List String)) ∧
    classify_device none = "unknown" ∧
    ∀ s : String,
      ((strContains (strLower s) "android" = true ∨
          strContains (strLower s) "ios" = true) →
        classify_device (some s) = "mobile") ∧
      (strContains (strLower s) "android" = false →
        strContains (strLower s) "ios" = false →
        (strContains (strLower s) "windows" = true ∨
          strContains (strLower s) "mac" = true) →
        classify_device (some s) = "desktop") ∧
      (strContains (strLower s) "android" = false →
        strContains (strLower s) "ios" = false →
        strContains (strLower s) "windows" = false →
        strContains (strLower s) "mac" = false →
        strContains (strLower s) "web" = true →
        classify_device (some s) = "web") ∧
      (strContains (strLower s) "android" = false →
        strContains (strLower s) "ios" = false →
        strContains (strLower s) "windows" = false →
        strContains (strLower s) "mac" = false →
        strContains (strLower s) "web" = false →
        classify_device (some s) = "other") := by
  refine ⟨?_, rfl, ?_⟩
  · intro p
    cases p with
    | none => simp [classify_device]
    | some s =>
      simp only [classify_device]
      by_cases h1 : (strContains (strLower s) "android" ||
          strContains (strLower s) "ios") = true
      · simp [h1]
      · by_cases h2 : (strContains (strLower s) "windows" ||
            strContains (strLower s) "mac") = true
        · simp [h1, h2]
        · by_cases h3 : strContains (strLower s) "web" = true
          · simp [h1, h2, h3]
          · simp [h1, h2, h3]
  · intro s
    refine ⟨?_, ?_, ?_, ?_⟩
    · rintro (h | h) <;> simp [classify_device, h]
    · intro h1 h2 h3
      rcases h3 with h3 | h3 <;> simp [classify_device, h1, h2, h3]
    · intro h1 h2 h3 h4 h5
      simp [classify_device, h1, h2, h3, h4, h5]
    · intro h1 h2 h3 h4 h5
      simp [classify_device, h1, h2, h3, h4, h5]

/-- C5 witness: the android rule fires on a concrete platform string. -/
theorem classify_device_spec_witness :
    (strContains (strLower "Android OS 9") "android" = true ∨
      strContains (strLower "Android OS 9") "ios" = true) ∧
    classify_device (some "Android OS 9") = "mobile" :=
  ⟨Or.inl (by decide),
    (classify_device_spec.2.2 "Android OS 9").1 (Or.inl (by decide))⟩

theorem dim_device_proj_pairwise (df : List Record)
    (hplat : ∀ r ∈ df, r.platform ≠ some UNKNOWN_VALUE) :
    ((create_dim_device df).map (fun d => (d.platform, d.device_id))).Pairwise
      (fun a b => a.1 ≠ b.1) := by
  rw [List.pairwise_map]
  exact (dim_device_keys df hplat).2

theorem dim_track_proj_pairwise (df : List Record)
    (htrack : ∀ r ∈ df, r.spotify_track_uri ≠ some UNKNOWN_VALUE) :
    ((create_dim_track df).map
        (fun d => (some d.spotify_track_uri, d.track_id))).Pairwise
      (fun a b => a.1 ≠ b.1) := by
  rw [List.pairwise_map]
  exact ((dim_track_keys df htrack).2).imp
    (fun hne hc => hne (Option.some.inj hc))

theorem dim_episode_proj_pairwise (df : List Record)
    (hep : ∀ r ∈ df, r.spotify_episode_uri ≠ some UNKNOWN_VALUE) :
    ((create_dim_episode df).map
        (fun d => (some d.spotify_episode_uri, d.episode_id))).Pairwise
      (fun a b => a.1 ≠ b.1) := by
  rw [List.pairwise_map]
  exact ((dim_episode_keys df hep).2).imp
    (fun hne hc => hne (Option.some.inj hc))

theorem dim_location_proj_pairwise (df : List Record)
    (hip : ∀ r ∈ df, r.ip_addr ≠ some "0.0.0.0") :
    ((create_dim_location df).map
        (fun d => (d.ip_addr, d.location_id))).Pairwise
      (fun a b => a.1 ≠ b.1) := by
  rw [List.pairwise_map]
  exact (dim_location_keys df hip).2

/-- C3 (amended): given spec §3's no-collision requirement, each of the
four dimension-side join keys is unique, so every merge is a functional
lookup and the fact table has exactly one row per cleaned input row. -/
theorem fact_table_row_count (df : List Record)
    (h : NoSentinelCollision df) : (etl_fact df).length = df.length := by
  obtain ⟨hplat, htrack, hep, hip⟩ := h
  simp only [etl_fact, create_fact_table, etl_merged, merge_dims]
  rw [List.length_map, List.length_map]
  rw [length_leftMergeId _ _ _ (dim_location_proj_pairwise df hip)]
  rw [length_leftMergeId _ _ _ (dim_episode_proj_pairwise df hep)]
  rw [length_leftMergeId _ _ _ (dim_track_proj_pairwise df htrack)]
  rw [length_leftMergeId _ _ _ (dim_device_proj_pairwise df hplat)]

/-- C3 witness: on a concrete one-event dataset without sentinel
collisions, the fact table has exactly one row. -/
theorem fact_table_row_count_witness :
    NoSentinelCollision [recW] ∧ (etl_fact [recW]).length = [recW].length :=
  ⟨⟨by decide, by decide, by decide, by decide⟩,
    fact_table_row_count [recW] ⟨by decide, by decide, by decide, by decide⟩⟩

/-- A cleaned row whose platform value equals the device sentinel's
natural-key value `"Unknown"`. -/
def recU : Record := { recW with platform := some UNKNOWN_VALUE }

/-- C3 counterexample to the claim as stated for *every* cleaned
dataset: when a data row's platform is the literal `"Unknown"`, the
device dimension holds two rows with that key (the sentinel and the
data row), the device merge fans out, and the fact table has 2 rows for
a 1-row input. -/
theorem fact_table_row_count_cex :
    ([recU] : List Record).length = 1 ∧ (etl_fact [recU]).length = 2 := by
  exact ⟨rfl, by decide⟩

/-- Referential integrity of one fact row: every foreign key is either
the sentinel `-1` or a surrogate key present in its dimension, and the
recomputed `date_id` appears in `dim_date`. -/
def FactRowOk (df : List Record) (f : FactRow) : Prop :=
  (f.track_id = UNKNOWN_ID ∨
    f.track_id ∈ (create_dim_track df).map (fun d => d.track_id)) ∧
  (f.episode_id = UNKNOWN_ID ∨
    f.episode_id ∈ (create_dim_episode df).map (fun d => d.episode_id)) ∧
  (f.device_id = UNKNOWN_ID ∨
    f.device_id ∈ (create_dim_device df).map (fun d => d.device_id)) ∧
  (f.location_id = UNKNOWN_ID ∨
    f.location_id ∈ (create_dim_location df).map (fun d => d.location_id)) ∧
  f.date_id ∈ (create_dim_date df).map (fun d => d.date_id)

/-- C4: every row of the completed fact table references each dimension
either by the sentinel `-1` or by a surrogate key present in that
dimension (never null — the fields are integers after the fill), a row
with no track URI gets `track_id = -1` and one with no episode URI gets
`episode_id = -1`, and the recomputed `date_id` always appears among
`dim_date`'s keys. -/
theorem fact_foreign_keys_valid (df : List Record) (m : MergedRecord)
    (hm : m ∈ etl_merged df) :
    FactRowOk df (mkFactRow m) ∧
    (m.r.spotify_track_uri = none →
      (mkFactRow m).track_id = UNKNOWN_ID) ∧
    (m.r.spotify_episode_uri = none →
      (mkFactRow m).episode_id = UNKNOWN_ID) := by
  simp only [etl_merged, merge_dims] at hm
  rcases List.mem_map.mp hm with ⟨q, hq4, rfl⟩
  have h4 := mem_leftMergeId _ _ _ _ hq4
  have h3 := mem_leftMergeId _ _ _ _ h4.1
  have h2 := mem_leftMergeId _ _ _ _ h3.1
  have h1 := mem_leftMergeId _ _ _ _ h2.1
  refine ⟨⟨?_, ?_, ?_, ?_, ?_⟩, ?_, ?_⟩
  · -- track_id
    rcases h2.2 with hnone | ⟨d, hd, heq, _⟩
    · left
      show (q.1.1.2).getD UNKNOWN_ID = UNKNOWN_ID
      rw [hnone]; rfl
    · right
      rcases List.mem_map.mp hd with ⟨dt, hdt, rfl⟩
      show (q.1.1.2).getD UNKNOWN_ID ∈ _
      rw [heq]
      exact List.mem_map.mpr ⟨dt, hdt, rfl⟩
  · -- episode_id
    rcases h3.2 with hnone | ⟨d, hd, heq, _⟩
    · left
      show (q.1.2).getD UNKNOWN_ID = UNKNOWN_ID
      rw [hnone]; rfl
    · right
      rcases List.mem_map.mp hd with ⟨dt, hdt, rfl⟩
      show (q.1.2).getD UNKNOWN_ID ∈ _
      rw [heq]
      exact List.mem_map.mpr ⟨dt, hdt, rfl⟩
  · -- device_id
    rcases h1.2 with hnone | ⟨d, hd, heq, _⟩
    · left
      show (q.1.1.1.2).getD UNKNOWN_ID = UNKNOWN_ID
      rw [hnone]; rfl
    · right
      rcases List.mem_map.mp hd with ⟨dt, hdt, rfl⟩
      show (q.1.1.1.2).getD UNKNOWN_ID ∈ _
      rw [heq]
      exact List.mem_map.mpr ⟨dt, hdt, rfl⟩
  · -- location_id
    rcases h4.2 with hnone | ⟨d, hd, heq, _⟩
    · left
      show (q.2).getD UNKNOWN_ID = UNKNOWN_ID
      rw [hnone]; rfl
    · right
      rcases List.mem_map.mp hd with ⟨dt, hdt, rfl⟩
      show (q.2).getD UNKNOWN_ID ∈ _
      rw [heq]
      exact List.mem_map.mpr ⟨dt, hdt, rfl⟩
  · -- date_id membership
    have hr : q.1.1.1.1 ∈ df := h1.1
    have hmem : dimDateRowOf q.1.1.1.1 ∈ df.map dimDateRowOf :=
      List.mem_map.mpr ⟨_, hr, rfl⟩
    rcases keys_complete_dedupKeyed (fun r => r.date_id) _ _ hmem
      with ⟨b, hb, hbe⟩
    exact List.mem_map.mpr ⟨b, hb, hbe⟩
  · -- no track uri → sentinel
    intro hu
    have : q.1.1.2 = none := by
      refine none_id_of_no_match _ _ _ _ h3.1 ?_
      intro d hd
      rcases List.mem_map.mp hd with ⟨dt, _, rfl⟩
      show some dt.spotify_track_uri ≠ _
      rw [show q.1.1.1.1.spotify_track_uri = none from hu]
      simp
    show (q.1.1.2).getD UNKNOWN_ID = UNKNOWN_ID
    rw [this]; rfl
  · -- no episode uri → sentinel
    intro hu
    have : q.1.2 = none := by
      refine none_id_of_no_match _ _ _ _ h4.1 ?_
      intro d hd
      rcases List.mem_map.mp hd with ⟨dt, _, rfl⟩
      show some dt.spotify_episode_uri ≠ _
      rw [show q.1.1.1.1.spotify_episode_uri = none from hu]
      simp
    show (q.1.2).getD UNKNOWN_ID = UNKNOWN_ID
    rw [this]; rfl

/-- The single merged record the pipeline produces from `[recW]`. -/
def mWit : MergedRecord :=
  { r := recW, device_id := some 0, track_id := some 0,
    episode_id := none, location_id := some 0 }

/-- C4 witness: the referential-integrity property at a concrete
pipeline run. -/
theorem fact_foreign_keys_valid_witness :
    mWit ∈ etl_merged [recW] ∧
    (FactRowOk [recW] (mkFactRow mWit) ∧
      (mWit.r.spotify_track_uri = none →
        (mkFactRow mWit).track_id = UNKNOWN_ID) ∧
      (mWit.r.spotify_episode_uri = none →
        (mkFactRow mWit).episode_id = UNKNOWN_ID)) :=
  ⟨by decide, fact_foreign_keys_valid [recW] mWit (by decide)⟩

theorem isPrefixOf_self_chars (l : List Char) : l.isPrefixOf l = true := by
  induction l with
  | nil => rfl
  | cons c t ih => simp [List.isPrefixOf, ih]

theorem listInfix_append_self (pre l : List Char) :
    listInfix l (pre ++ l) = true := by
  induction pre with
  | nil =>
    cases l with
    | nil => rfl
    | cons c t =>
      simp only [List.nil_append, listInfix]
      rw [isPrefixOf_self_chars]
      rfl
  | cons p ps ih =>
    simp only [List.cons_append, listInfix, List.append_eq, ih, Bool.or_true]

theorem strContains_append (a b : String) : strContains (a ++ b) b = true := by
  have hd : (a ++ b).data = a.data ++ b.data := by
    cases a; cases b; rfl
  simp only [strContains, hd]
  exact listInfix_append_self a.data b.data

/-- C6: the record loader fails with a file-not-found error whose
message contains the resolved path exactly when the directory is absent
or holds no `.json` file; otherwise it returns all records of the
matching files, concatenated in enumeration order, with the timestamp
field parsed during this step. -/
theorem extract_json_files_spec (path : String)
    (dir : Option (List JsonFile)) (parse_ts : String → Timestamp) :
    ((∃ e, extract_json_files path dir parse_ts = .error e) ↔
      (dir = none ∨ ∃ files, dir = some files ∧
        files.filter (fun f => strEndsWith f.name ".json") = [])) ∧
    (∀ e, extract_json_files path dir parse_ts = .error e →
      strContains e path = true) ∧
    (∀ files, dir = some files →
      files.filter (fun f => strEndsWith f.name ".json") ≠ [] →
      extract_json_files path dir parse_ts = .ok
        ((files.filter (fun f => strEndsWith f.name ".json")).flatMap
          (fun f => f.records.map (fun r =>
            { ts := parse_ts r.ts_raw, payload := r.payload })))) := by
  refine ⟨?_, ?_, ?_⟩
  · cases dir with
    | none =>
      constructor
      · intro _; exact Or.inl rfl
      · intro _; exact ⟨"No existe la ruta: " ++ path, rfl⟩
    | some files =>
      by_cases hje : (files.filter (fun f => strEndsWith f.name ".json")).isEmpty
      · constructor
        · intro _
          exact Or.inr ⟨files, rfl, List.isEmpty_iff.mp hje⟩
        · intro _
          refine ⟨"No se encontraron JSON en: " ++ path, ?_⟩
          simp [extract_json_files, hje]
      · constructor
        · rintro ⟨e, he⟩
          simp [extract_json_files, hje] at he
        · rintro (h | ⟨files2, hf2, hfil⟩)
          · exact absurd h (by simp)
          · exfalso
            apply hje
            rw [show files = files2 from Option.some.inj hf2, hfil]
            rfl
  · cases dir with
    | none =>
      intro e he
      have : "No existe la ruta: " ++ path = e := by
        simpa [extract_json_files] using he
      rw [← this]
      exact strContains_append _ _
    | some files =>
      by_cases hje : (files.filter (fun f => strEndsWith f.name ".json")).isEmpty
      · intro e he
        have : "No se encontraron JSON en: " ++ path = e := by
          simpa [extract_json_files, hje] using he
        rw [← this]
        exact strContains_append _ _
      · intro e he
        simp [extract_json_files, hje] at he
  · intro files hf hne
    have hje : (files.filter (fun f => strEndsWith f.name ".json")).isEmpty = false := by
      cases hq : files.filter (fun f => strEndsWith f.name ".json") with
      | nil => exact absurd hq hne
      | cons a as => rfl
    rw [hf]
    simp [extract_json_files, hje]

/-- Concrete input directory: one matching file with one record, one
non-matching file. -/
def jfilesW : List JsonFile :=
  [{ name := "Streaming_History_2024.json",
     records := [{ ts_raw := "2024-01-05T12:00:00Z",
                   payload := [("platform", some "iOS 16")] }] },
   { name := "readme.txt", records := [] }]

/-- Parse function used by the loader witness. -/
def parseW : String → Timestamp := fun _ => { year := 2024, month := 1, day := 5, hour := 12 }

/-- C6 witness: the success branch on a concrete directory. -/
theorem extract_json_files_spec_witness :
    jfilesW.filter (fun f => strEndsWith f.name ".json") ≠ [] ∧
    extract_json_files "data/raw" (some jfilesW) parseW = .ok
      ((jfilesW.filter (fun f => strEndsWith f.name ".json")).flatMap
        (fun f => f.records.map (fun r =>
          { ts := parseW r.ts_raw, payload := r.payload }))) :=
  ⟨by decide,
    (extract_json_files_spec "data/raw" (some jfilesW) parseW).2.2
      jfilesW rfl (by decide)⟩

/-- C7 (amended): stage 2 never changes any of the six stage-1
artifacts (a successful run writes only the separate enriched
artifact); any enrichment error is downgraded by the orchestrator to a
warning while the store is left untouched; and the error causes are
the stage-1 location dimension being absent, the lookup databases
being absent at open time, or — additionally — the merge step raising
when not a single ip was enriched. -/
theorem stage2_failure_isolated (store : FileStore) (dbs : Option GeoDbs) :
    ((run_stage2 store dbs).1.dim_date = store.dim_date ∧
      (run_stage2 store dbs).1.dim_device = store.dim_device ∧
      (run_stage2 store dbs).1.dim_track = store.dim_track ∧
      (run_stage2 store dbs).1.dim_episode = store.dim_episode ∧
      (run_stage2 store dbs).1.dim_location = store.dim_location ∧
      (run_stage2 store dbs).1.fact_table = store.fact_table) ∧
    (∀ e, enrich_location_dimension store dbs = .error e →
      run_stage2 store dbs =
        (store, ["No se pudo enriquecer datos geográficos: " ++ e])) ∧
    (∀ s2, enrich_location_dimension store dbs = .ok s2 →
      s2.dim_date = store.dim_date ∧ s2.dim_device = store.dim_device ∧
      s2.dim_track = store.dim_track ∧
      s2.dim_episode = store.dim_episode ∧
      s2.dim_location = store.dim_location ∧
      s2.fact_table = store.fact_table) ∧
    ((∃ e, enrich_location_dimension store dbs = .error e) ↔
      (store.dim_location = none ∨ dbs = none ∨
        ∃ dim g, store.dim_location = some dim ∧ dbs = some g ∧
          build_geo_data g (uniqueIps dim) = [])) := by
  rcases hloc : store.dim_location with _ | dim
  · have he : enrich_location_dimension store dbs =
        .error ("Error: No se encontró " ++ "dim_location.parquet") := by
      simp [enrich_location_dimension, hloc]
    have hr : run_stage2 store dbs =
        (store, ["No se pudo enriquecer datos geográficos: " ++
          ("Error: No se encontró " ++ "dim_location.parquet")]) := by
      simp [run_stage2, he]
    refine ⟨?_, ?_, ?_, ?_⟩
    · rw [hr]
      exact ⟨rfl, rfl, rfl, rfl, hloc, rfl⟩
    · intro e he2
      rw [he] at he2
      injection he2 with hmsg
      rw [← hmsg]
      exact hr
    · intro s2 h2
      rw [he] at h2
      exact absurd h2 (by simp)
    · exact ⟨fun _ => Or.inl rfl, fun _ => ⟨_, he⟩⟩
  · cases dbs with
    | none =>
      have he : enrich_location_dimension store none =
          .error "Bases GeoLite2 no encontradas" := by
        simp [enrich_location_dimension, hloc]
      have hr : run_stage2 store none =
          (store, ["No se pudo enriquecer datos geográficos: " ++
            "Bases GeoLite2 no encontradas"]) := by
        simp [run_stage2, he]
      refine ⟨?_, ?_, ?_, ?_⟩
      · rw [hr]
        exact ⟨rfl, rfl, rfl, rfl, hloc, rfl⟩
      · intro e he2
        rw [he] at he2
        injection he2 with hmsg
        rw [← hmsg]
        exact hr
      · intro s2 h2
        rw [he] at h2
        exact absurd h2 (by simp)
      · exact ⟨fun _ => Or.inr (Or.inl rfl), fun _ => ⟨_, he⟩⟩
    | some g =>
      by_cases hgeo : (build_geo_data g (uniqueIps dim)).isEmpty
      · have he : enrich_location_dimension store (some g) =
            .error "KeyError: ip_addr" := by
          simp [enrich_location_dimension, hloc, enrich_table, hgeo]
        have hr : run_stage2 store (some g) =
            (store, ["No se pudo enriquecer datos geográficos: " ++
              "KeyError: ip_addr"]) := by
          simp [run_stage2, he]
        refine ⟨?_, ?_, ?_, ?_⟩
        · rw [hr]
          exact ⟨rfl, rfl, rfl, rfl, hloc, rfl⟩
        · intro e he2
          rw [he] at he2
          injection he2 with hmsg
          rw [← hmsg]
          exact hr
        · intro s2 h2
          rw [he] at h2
          exact absurd h2 (by simp)
        · constructor
          · intro _
            exact Or.inr (Or.inr
              ⟨dim, g, rfl, rfl, List.isEmpty_iff.mp hgeo⟩)
          · intro _
            exact ⟨_, he⟩
      · have he : enrich_location_dimension store (some g) =
            .ok { store with dim_location_enriched := some (enrich_rows dim g) } := by
          simp [enrich_location_dimension, hloc, enrich_table, hgeo]
        have hr : run_stage2 store (some g) =
            ({ store with dim_location_enriched := some (enrich_rows dim g) }, []) := by
          simp [run_stage2, he]
        refine ⟨?_, ?_, ?_, ?_⟩
        · rw [hr]
          exact ⟨rfl, rfl, rfl, rfl, hloc, rfl⟩
        · intro e he2
          rw [he] at he2
          exact absurd he2 (by simp)
        · intro s2 h2
          rw [he] at h2
          injection h2 with h3
          rw [← h3]
          exact ⟨rfl, rfl, rfl, rfl, hloc, rfl⟩
        · constructor
          · rintro ⟨e, he2⟩
            rw [he] at he2
            exact absurd he2 (by simp)
          · rintro (h | h | ⟨dim2, g2, hd2, hg2, hge⟩)
            · exact absurd h (by simp)
            · exact absurd h (by simp)
            · have hdd := Option.some.inj hd2
              have hgg := Option.some.inj hg2
              subst hdd
              subst hgg
              apply absurd hgeo
              intro hiso
              apply hiso
              rw [hge]
              rfl

/-- A store with no persisted artifacts at all. -/
def stEmpty : FileStore :=
  { dim_date := none, dim_device := none, dim_track := none,
    dim_episode := none, dim_location := none, fact_table := none,
    dim_location_enriched := none }

/-- C7 witness: with the stage-1 location dimension absent, enrichment
errors and the orchestrator continues with the store unchanged plus a
warning. -/
theorem stage2_failure_isolated_witness :
    enrich_location_dimension stEmpty none =
      .error ("Error: No se encontró " ++ "dim_location.parquet") ∧
    run_stage2 stEmpty none =
      (stEmpty, ["No se pudo enriquecer datos geográficos: " ++
        ("Error: No se encontró " ++ "dim_location.parquet")]) :=
  ⟨rfl, (stage2_failure_isolated stEmpty none).2.1 _ rfl⟩

theorem withIndex_snd_get {α : Type} (l : List α) (i : Nat)
    (h : i < (withIndex (fun row j => (row, j)) l 0).length) :
    ((withIndex (fun row j => (row, j)) l 0).get ⟨i, h⟩).2 = i := by
  have h0 : i < l.length := by
    rw [length_withIndex] at h
    exact h
  have h1 : l[i]? = some (l.get ⟨i, h0⟩) := by
    rw [List.getElem?_eq_getElem h0]
    simp [List.get_eq_getElem]
  have h2 : (withIndex (fun row j => (row, j)) l 0)[i]? =
      some (l.get ⟨i, h0⟩, 0 + i) := by
    rw [getElem?_withIndex, h1]
    rfl
  have h3 : (withIndex (fun row j => (row, j)) l 0)[i]? =
      some ((withIndex (fun row j => (row, j)) l 0).get ⟨i, h⟩) := by
    rw [List.getElem?_eq_getElem h]
    simp [List.get_eq_getElem]
  rw [h2] at h3
  have h4 := Option.some.inj h3
  rw [← h4]
  simp

/-- C8: the cleaner drops the audiobook column group exactly when the
group is nonempty and every one of its values is missing on every row
(one present value keeps the whole group), and then assigns `event_id`
as the zero-based position of each row in the resulting sequence. -/
theorem clean_data_spec (df : RawFrame) :
    (((audiobookCols df.columns).isEmpty = true ∨
        audiobookAllNull (audiobookCols df.columns) df.rows = false) →
      (clean_data df).columns = df.columns ++ ["event_id"] ∧
      (clean_data df).rows.map Prod.fst = df.rows) ∧
    ((audiobookCols df.columns).isEmpty = false →
      audiobookAllNull (audiobookCols df.columns) df.rows = true →
      (clean_data df).columns =
        df.columns.filter
          (fun c => !((audiobookCols df.columns).contains c)) ++
          ["event_id"] ∧
      (clean_data df).rows.map Prod.fst =
        df.rows.map (fun row =>
          row.filter
            (fun cell => !((audiobookCols df.columns).contains cell.1)))) ∧
    (∀ i (h : i < (clean_data df).rows.length),
      ((clean_data df).rows.get ⟨i, h⟩).2 = i) := by
  refine ⟨?_, ?_, ?_⟩
  · intro h
    have hdrop : (!(audiobookCols df.columns).isEmpty &&
        audiobookAllNull (audiobookCols df.columns) df.rows) = false := by
      rcases h with h | h <;> simp [h]
    constructor
    · simp [clean_data, hdrop]
    · have hrows : (clean_data df).rows =
          withIndex (fun row i => (row, i)) df.rows 0 := by
        simp [clean_data, hdrop]
      rw [hrows, withIndex_map (fun row i => (row, i)) Prod.fst id
        (fun a i => rfl) df.rows 0]
      simp
  · intro h1 h2
    have hdrop : (!(audiobookCols df.columns).isEmpty &&
        audiobookAllNull (audiobookCols df.columns) df.rows) = true := by
      simp [h1, h2]
    constructor
    · simp [clean_data, hdrop]
    · have hrows : (clean_data df).rows =
          withIndex (fun row i => (row, i))
            (df.rows.map (fun row =>
              row.filter
                (fun cell =>
                  !((audiobookCols df.columns).contains cell.1)))) 0 := by
        simp [clean_data, hdrop]
      rw [hrows, withIndex_map (fun row i => (row, i)) Prod.fst id
        (fun a i => rfl) _ 0]
      simp
  · intro i h
    simp only [clean_data] at h ⊢
    exact withIndex_snd_get _ i h

/-- Concrete loader output with an all-null audiobook column group. -/
def rawW : RawFrame :=
  { columns := ["ts", "platform", "audiobook_title", "audiobook_uri"],
    rows := [[("ts", some "2024-01-05T12:00:00Z"),
              ("platform", some "iOS 16"),
              ("audiobook_title", none), ("audiobook_uri", none)],
             [("ts", some "2024-01-05T13:00:00Z"),
              ("platform", some "windows"),
              ("audiobook_title", none), ("audiobook_uri", none)]] }

/-- C8 witness: the drop branch on a concrete frame whose audiobook
group is entirely null, plus positional `event_id`. -/
theorem clean_data_spec_witness :
    ((audiobookCols rawW.columns).isEmpty = false ∧
      audiobookAllNull (audiobookCols rawW.columns) rawW.rows = true) ∧
    ((clean_data rawW).columns =
        rawW.columns.filter
          (fun c => !((audiobookCols rawW.columns).contains c)) ++
          ["event_id"] ∧
      (clean_data rawW).rows.map Prod.fst =
        rawW.rows.map (fun row =>
          row.filter
            (fun cell => !((audiobookCols rawW.columns).contains cell.1)))) :=
  ⟨⟨by decide, by decide⟩,
    (clean_data_spec rawW).2.1 (by decide) (by decide)⟩

theorem lookupIp_ip (g : GeoDbs) (ip : Option String) (gr : GeoRow)
    (h : lookupIp g ip = some gr) : ip = some gr.ip_addr := by
  cases ip with
  | none => simp [lookupIp] at h
  | some s =>
    simp only [lookupIp] at h
    cases hc : g.city s with
    | none => rw [hc] at h; simp at h
    | some c =>
      cases ha : g.asn s with
      | none => rw [hc, ha] at h; simp at h
      | some a =>
        cases hco : g.country s with
        | none => rw [hc, ha, hco] at h; simp at h
        | some co =>
          rw [hc, ha, hco] at h
          have h2 := Option.some.inj h
          rw [← h2]

theorem mem_build_geo (g : GeoDbs) (ips : List (Option String))
    (gr : GeoRow) (h : gr ∈ build_geo_data g ips) :
    some gr.ip_addr ∈ ips ∧ lookupIp g (some gr.ip_addr) = some gr := by
  rcases List.mem_filterMap.mp h with ⟨ip, hip, hlk⟩
  have he := lookupIp_ip g ip gr hlk
  rw [he] at hip hlk
  exact ⟨hip, hlk⟩

theorem geo_pairwise (g : GeoDbs) (ips : List (Option String))
    (h : ips.Pairwise (fun a b => a ≠ b)) :
    (build_geo_data g ips).Pairwise (fun a b => a.ip_addr ≠ b.ip_addr) := by
  induction ips with
  | nil => simp [build_geo_data]
  | cons ip rest ih =>
    rcases List.pairwise_cons.mp h with ⟨hip, hrest⟩
    simp only [build_geo_data, List.filterMap_cons]
    cases hlk : lookupIp g ip with
    | none => exact ih hrest
    | some gr =>
      refine List.Pairwise.cons ?_ (ih hrest)
      intro b hb he
      have hbip := (mem_build_geo g rest b hb).1
      have hgip : ip = some gr.ip_addr := lookupIp_ip g ip gr hlk
      exact hip _ hbip (by rw [hgip, he])

theorem length_merge_geo (dim : List DimLocationRow) (geo : List GeoRow)
    (h : geo.Pairwise (fun a b => a.ip_addr ≠ b.ip_addr)) :
    (merge_geo dim geo).length = dim.length := by
  induction dim with
  | nil => rfl
  | cons r rs ih =>
    simp only [merge_geo, List.flatMap_cons] at *
    rw [List.length_append, ih]
    have hle : (geo.filter
        (fun gr => decide (r.ip_addr = some gr.ip_addr))).length ≤ 1 :=
      length_filter_keyed_le_one (fun gr => some gr.ip_addr) r.ip_addr _ geo
        (h.imp (fun hne hc => hne (Option.some.inj hc)))
        (fun x hx => (of_decide_eq_true hx).symm)
    by_cases he : (geo.filter
        (fun gr => decide (r.ip_addr = some gr.ip_addr))).isEmpty
    · rw [if_pos he]; simp [Nat.add_comm]
    · rw [if_neg he]
      have hpos : 0 < (geo.filter
          (fun gr => decide (r.ip_addr = some gr.ip_addr))).length := by
        cases hq : geo.filter
            (fun gr => decide (r.ip_addr = some gr.ip_addr)) with
        | nil => rw [hq] at he; simp at he
        | cons a as => simp
      rw [List.length_map]
      simp only [List.length_cons]
      omega

theorem merge_geo_no_match_defaults (dim : List DimLocationRow)
    (geo : List GeoRow) (m : MergedLocationRow) (hm : m ∈ merge_geo dim geo)
    (hno : ∀ gr ∈ geo, m.ip_addr ≠ some gr.ip_addr) :
    m.city = none ∧ m.country = none ∧ m.region = none ∧
    m.latitude = none ∧ m.longitude = none ∧ m.isp = none := by
  rcases List.mem_flatMap.mp hm with ⟨r, hr, hx⟩
  by_cases he : (geo.filter
      (fun gr => decide (r.ip_addr = some gr.ip_addr))).isEmpty
  · rw [if_pos he] at hx
    rcases List.mem_singleton.mp hx with rfl
    exact ⟨rfl, rfl, rfl, rfl, rfl, rfl⟩
  · rw [if_neg he] at hx
    rcases List.mem_map.mp hx with ⟨gr, hgr, rfl⟩
    rcases List.mem_filter.mp hgr with ⟨hgeo, hkey⟩
    exact absurd (of_decide_eq_true hkey) (hno gr hgeo)

theorem placeholder_not_mem_uniqueIps (dim : List DimLocationRow)
    (p : String) (hp : p ∈ placeholderIps) : some p ∉ uniqueIps dim := by
  intro hmem
  have h1 := mem_of_mem_dedupKeyed id _ _ hmem
  rcases List.mem_map.mp h1 with ⟨r, hr, hre⟩
  rcases List.mem_filter.mp hr with ⟨_, hcond⟩
  rw [hre] at hcond
  simp at hcond
  exact hcond hp

theorem mem_uniqueIps_of_data (dim : List DimLocationRow)
    (r : DimLocationRow) (hr : r ∈ dim) (s : String)
    (hip : r.ip_addr = some s) (hnp : s ∉ placeholderIps) :
    some s ∈ uniqueIps dim := by
  have hf : r ∈ dim.filter (fun r =>
      match r.ip_addr with
      | some s => decide (s ∉ placeholderIps)
      | none => true) := by
    rw [List.mem_filter]
    refine ⟨hr, ?_⟩
    rw [hip]
    simpa using hnp
  have hm : some s ∈ (dim.filter (fun r =>
      match r.ip_addr with
      | some s => decide (s ∉ placeholderIps)
      | none => true)).map (fun r => r.ip_addr) :=
    List.mem_map.mpr ⟨r, hf, hip⟩
  rcases keys_complete_dedupKeyed id _ _ hm with ⟨b, hb, hbe⟩
  rw [show b = some s from hbe] at hb
  exact hb

/-- The amended default-fill outcome for a row whose ip was not
enriched: the three filled text fields are `"Unknown"`, the coordinates
are 0, and the unfilled `country` column stays null. -/
def EnrichedDefaults (row : EnrichedLocationRow) : Prop :=
  row.city = "Unknown" ∧ row.region = "Unknown" ∧ row.isp = "Unknown" ∧
  row.latitude = 0 ∧ row.longitude = 0 ∧ row.country = none

/-- C2 (amended): an ip whose lookup raises is excluded from the
enrichment table while successfully looked up ips all appear (per-ip
isolation, the loop itself never aborts the batch); whenever at least
one ip was enriched — otherwise the merge step itself crashes and no
table is persisted — the run completes, the enriched table keeps
exactly one row per location row, and every row whose ip was not
enriched is filled with `city/region/isp = "Unknown"` and coordinates
0 — but its `country` column, which the fill step does not touch,
remains null. -/
theorem enrichment_per_ip_and_fill (dim : List DimLocationRow)
    (g : GeoDbs) :
    (∀ ip ∈ uniqueIps dim, lookupIp g ip = none →
      ∀ gr ∈ build_geo_data g (uniqueIps dim), some gr.ip_addr ≠ ip) ∧
    (∀ ip gr0, ip ∈ uniqueIps dim → lookupIp g ip = some gr0 →
      gr0 ∈ build_geo_data g (uniqueIps dim)) ∧
    (build_geo_data g (uniqueIps dim) ≠ [] →
      enrich_table dim g = .ok (enrich_rows dim g) ∧
      (enrich_rows dim g).length = dim.length ∧
      (∀ row ∈ enrich_rows dim g,
        (∀ gr ∈ build_geo_data g (uniqueIps dim),
          row.ip_addr ≠ some gr.ip_addr) →
        EnrichedDefaults row)) := by
  refine ⟨?_, ?_, ?_⟩
  · intro ip _ hnone gr hgr heq
    have h2 := (mem_build_geo g _ gr hgr).2
    rw [heq] at h2
    rw [h2] at hnone
    exact absurd hnone (by simp)
  · intro ip gr0 hip hlk
    exact List.mem_filterMap.mpr ⟨ip, hip, hlk⟩
  · intro hne
    have hge : (build_geo_data g (uniqueIps dim)).isEmpty = false := by
      cases hq : build_geo_data g (uniqueIps dim) with
      | nil => exact absurd hq hne
      | cons a as => rfl
    refine ⟨by simp [enrich_table, hge], ?_, ?_⟩
    · have hu : (uniqueIps dim).Pairwise (fun a b => a ≠ b) :=
        pairwise_dedupKeyed id _
      have hg2 := geo_pairwise g (uniqueIps dim) hu
      simp only [enrich_rows, List.length_map]
      exact length_merge_geo dim _ hg2
    · intro row hrow hno
      simp only [enrich_rows] at hrow
      rcases List.mem_map.mp hrow with ⟨m, hm, rfl⟩
      have hno2 : ∀ gr ∈ build_geo_data g (uniqueIps dim),
          m.ip_addr ≠ some gr.ip_addr := hno
      obtain ⟨h1, h2, h3, h4, h5, h6⟩ :=
        merge_geo_no_match_defaults dim _ m hm hno2
      simp [EnrichedDefaults, fill_defaults, h1, h2, h3, h4, h5, h6]

/-- Readers with no address present (every lookup raises). -/
def noDbs : GeoDbs :=
  { city := fun _ => none, asn := fun _ => none, country := fun _ => none }

/-- City record returned by the test readers below. -/
def cityResW : CityRes :=
  { cityName := some "Metropolis", subdivisionName := some "Region X",
    latitude := some 1, longitude := some 2 }

/-- Readers that resolve exactly the address `"8.8.8.8"`. -/
def oneDbs : GeoDbs :=
  { city := fun ip => if ip = "8.8.8.8" then some cityResW else none,
    asn := fun ip =>
      if ip = "8.8.8.8" then some { org := some "ExampleNet" } else none,
    country := fun ip =>
      if ip = "8.8.8.8" then some { countryName := some "Testland" }
      else none }

/-- A location dimension with one resolvable ip and one private,
unresolvable ip: the run completes (one ip is enriched). -/
def dimC2 : List DimLocationRow :=
  [{ ip_addr := some "8.8.8.8", conn_country := some "ES",
     location_id := 0 },
   { ip_addr := some "10.0.0.1", conn_country := some "ES",
     location_id := 1 }]

/-- C2 counterexample to "no field of the final persisted enriched
table is left null": on a run that really completes (one ip resolved,
so the merge executes), the row whose ip failed the lookups gets
`city = "Unknown"` from the fill, but its `country` field is left null
because the fill step (`src/localization.py:69-74`) never touches the
`country` column. -/
theorem enrichment_country_left_null_cex :
    enrich_table dimC2 oneDbs = .ok (enrich_rows dimC2 oneDbs) ∧
    (enrich_rows dimC2 oneDbs).map (fun row => (row.city, row.country)) =
      [("Metropolis", some "Testland"), ("Unknown", none)] := by
  exact ⟨rfl, by decide⟩

/-- The enriched row the completed run produces for the unresolvable
ip of `dimC2`. -/
def rowC2 : EnrichedLocationRow :=
  { ip_addr := some "10.0.0.1", conn_country := some "ES",
    location_id := 1, city := "Unknown", country := none,
    region := "Unknown", latitude := 0, longitude := 0,
    isp := "Unknown" }

/-- C2 witness: the amended behaviour at a concrete completing run. -/
theorem enrichment_per_ip_and_fill_witness :
    build_geo_data oneDbs (uniqueIps dimC2) ≠ [] ∧
    enrich_table dimC2 oneDbs = .ok (enrich_rows dimC2 oneDbs) ∧
    (enrich_rows dimC2 oneDbs).length = dimC2.length ∧
    rowC2 ∈ enrich_rows dimC2 oneDbs ∧ EnrichedDefaults rowC2 :=
  ⟨by decide,
    ((enrichment_per_ip_and_fill dimC2 oneDbs).2.2 (by decide)).1,
    ((enrichment_per_ip_and_fill dimC2 oneDbs).2.2 (by decide)).2.1,
    by decide,
    ((enrichment_per_ip_and_fill dimC2 oneDbs).2.2 (by decide)).2.2
      rowC2 (by decide) (by decide)⟩

/-- C10 (amended): the excluded placeholder set is exactly
`{"0.0.0.0", "unknown", "Unknown"}`: placeholder ips never reach the
lookup databases (they are absent from the queried unique-ip list and
from the enrichment table) while every other ip present in the
dimension is queried; on every run that completes (at least one ip
enriched — otherwise the merge crashes and nothing is persisted),
placeholder rows carry the filled defaults (`"Unknown"` texts, 0
coordinates) — except `country`, which remains null rather than
`"Unknown"`. -/
theorem placeholder_ips_excluded (dim : List DimLocationRow)
    (g : GeoDbs) :
    placeholderIps = ["0.0.0.0", "unknown", "Unknown"] ∧
    (∀ p ∈ placeholderIps, some p ∉ uniqueIps dim) ∧
    (∀ gr ∈ build_geo_data g (uniqueIps dim),
      gr.ip_addr ∉ placeholderIps) ∧
    (∀ r ∈ dim, ∀ s, r.ip_addr = some s → s ∉ placeholderIps →
      some s ∈ uniqueIps dim) ∧
    (build_geo_data g (uniqueIps dim) ≠ [] →
      enrich_table dim g = .ok (enrich_rows dim g) ∧
      (∀ row ∈ enrich_rows dim g, ∀ p, row.ip_addr = some p →
        p ∈ placeholderIps →
        row.city = "Unknown" ∧ row.region = "Unknown" ∧
        row.isp = "Unknown" ∧ row.latitude = 0 ∧ row.longitude = 0 ∧
        row.country = none)) := by
  refine ⟨rfl, ?_, ?_, ?_, ?_⟩
  · exact fun p hp => placeholder_not_mem_uniqueIps dim p hp
  · intro gr hgr hp
    exact placeholder_not_mem_uniqueIps dim gr.ip_addr hp
      ((mem_build_geo g _ gr hgr).1)
  · exact fun r hr s hip hnp => mem_uniqueIps_of_data dim r hr s hip hnp
  · intro hne
    have hge : (build_geo_data g (uniqueIps dim)).isEmpty = false := by
      cases hq : build_geo_data g (uniqueIps dim) with
      | nil => exact absurd hq hne
      | cons a as => rfl
    refine ⟨by simp [enrich_table, hge], ?_⟩
    intro row hrow p hip hp
    simp only [enrich_rows] at hrow
    rcases List.mem_map.mp hrow with ⟨m, hm, rfl⟩
    have hno : ∀ gr ∈ build_geo_data g (uniqueIps dim),
        m.ip_addr ≠ some gr.ip_addr := by
      intro gr hgr he
      have hipm : m.ip_addr = some p := hip
      have hgp : gr.ip_addr = p := by
        have h3 : (some gr.ip_addr : Option String) = some p := by
          rw [← he]
          exact hipm
        exact Option.some.inj h3
      exact placeholder_not_mem_uniqueIps dim gr.ip_addr (hgp ▸ hp)
        ((mem_build_geo g _ gr hgr).1)
    obtain ⟨h1, h2, h3, h4, h5, h6⟩ :=
      merge_geo_no_match_defaults dim _ m hm hno
    simp [fill_defaults, h1, h2, h3, h4, h5, h6]

/-- Readers that know every address (any queried ip would resolve). -/
def allDbs : GeoDbs :=
  { city := fun _ => some cityResW,
    asn := fun _ => some { org := some "ExampleNet" },
    country := fun _ => some { countryName := some "Testland" } }

/-- A location dimension with one placeholder-ip row and one real row:
the run completes (the real ip is enriched). -/
def dimC10 : List DimLocationRow :=
  [{ ip_addr := some "unknown", conn_country := some "US",
     location_id := 0 },
   { ip_addr := some "8.8.8.8", conn_country := some "US",
     location_id := 1 }]

/-- C10 counterexample to the claim as stated, on a run that really
completes: even with lookup databases that would resolve every
address, the placeholder row is never queried (its city stays the
filled `"Unknown"`, not the database value `"Metropolis"`), and its
`country` field is null in the persisted table — not the `"Unknown"`
default the claim asserts for all its text fields. -/
theorem placeholder_row_country_null_cex :
    enrich_table dimC10 allDbs = .ok (enrich_rows dimC10 allDbs) ∧
    (enrich_rows dimC10 allDbs).map
        (fun row => (row.ip_addr, row.city, row.country)) =
      [(some "unknown", "Unknown", none),
       (some "8.8.8.8", "Metropolis", some "Testland")] := by
  exact ⟨rfl, by decide⟩

/-- The enriched row the completed run produces for the placeholder ip
of `dimC10`. -/
def rowC10 : EnrichedLocationRow :=
  { ip_addr := some "unknown", conn_country := some "US",
    location_id := 0, city := "Unknown", country := none,
    region := "Unknown", latitude := 0, longitude := 0,
    isp := "Unknown" }

/-- C10 witness: the amended placeholder behaviour at a concrete
completing run. -/
theorem placeholder_ips_excluded_witness :
    build_geo_data allDbs (uniqueIps dimC10) ≠ [] ∧
    enrich_table dimC10 allDbs = .ok (enrich_rows dimC10 allDbs) ∧
    rowC10 ∈ enrich_rows dimC10 allDbs ∧
    (rowC10.city = "Unknown" ∧ rowC10.region = "Unknown" ∧
      rowC10.isp = "Unknown" ∧ rowC10.latitude = 0 ∧
      rowC10.longitude = 0 ∧ rowC10.country = none) :=
  ⟨by decide,
    ((placeholder_ips_excluded dimC10 allDbs).2.2.2.2 (by decide)).1,
    by decide,
    ((placeholder_ips_excluded dimC10 allDbs).2.2.2.2 (by decide)).2
      rowC10 (by decide) "unknown" rfl (by decide)⟩

/-- A location dimension holding only a private, unresolvable ip. -/
def dimPrivateOnly : List DimLocationRow :=
  [{ ip_addr := some "10.0.0.1", conn_country := some "ES",
     location_id := 0 }]

/-- A store holding a stage-1 location dimension whose ips all fail
the lookups. -/
def stC7 : FileStore :=
  { stEmpty with dim_location := some dimPrivateOnly }

/-- C7 counterexample to the claim as stated: enrichment also fails
with the location dimension present and the databases present — when
no ip at all is enriched, the empty enrichment frame lacks the ip
column and the merge raises, a third failure cause beyond the two the
claim lists. -/
theorem stage2_third_failure_cause_cex :
    stC7.dim_location ≠ none ∧
    (some noDbs : Option GeoDbs) ≠ none ∧
    enrich_location_dimension stC7 (some noDbs) =
      .error "KeyError: ip_addr" :=
  ⟨by decide, Option.some_ne_none noDbs, rfl⟩

/-- Store extension: every object that existed before still holds the
same content (new objects may have been allocated, fresh objects may
have been mutated). -/
def FramePres [Inhabited τ] (s t : Store τ) : Prop :=
  s.length ≤ t.length ∧ ∀ i, i < s.length → sread t i = sread s i

theorem framePres_refl [Inhabited τ] (s : Store τ) : FramePres s s :=
  ⟨Nat.le_refl _, fun _ _ => rfl⟩

theorem framePres_salloc [Inhabited τ] {s t : Store τ}
    (h : FramePres s t) (v : τ) : FramePres s (salloc t v).1 := by
  refine ⟨?_, ?_⟩
  · simp only [salloc, List.length_append, List.length_cons,
      List.length_nil]
    have := h.1
    omega
  · intro i hi
    have hit : i < t.length := Nat.lt_of_lt_of_le hi h.1
    have hstep : sread (salloc t v).1 i = sread t i := by
      simp [sread, salloc, List.getD_eq_getElem?_getD,
        List.getElem?_append, hit]
    rw [hstep, h.2 i hi]

theorem framePres_smut [Inhabited τ] {s t : Store τ}
    (h : FramePres s t) (r : Nat) (f : τ → τ) (hr : s.length ≤ r) :
    FramePres s (smut t r f) := by
  refine ⟨?_, ?_⟩
  · simp only [smut, List.length_set]
    exact h.1
  · intro i hi
    have hir : r ≠ i := by omega
    have hstep : sread (smut t r f) i = sread t i := by
      simp [sread, smut, List.getD_eq_getElem?_getD,
        List.getElem?_set_ne hir]
    rw [hstep, h.2 i hi]

theorem clean_data_prog_frames [Inhabited τ]
    (fcopy fdrop freset fsetid : τ → τ) (needDrop : τ → Bool)
    (s : Store τ) (df : Nat) :
    FramePres s (clean_data_prog fcopy fdrop freset fsetid needDrop s df).1 := by
  simp only [clean_data_prog]
  split
  · apply framePres_smut
    · apply framePres_salloc
      apply framePres_salloc
      exact framePres_salloc (framePres_refl s) _
    · simp only [salloc, List.length_append, List.length_cons,
        List.length_nil]
      omega
  · apply framePres_smut
    · apply framePres_salloc
      exact framePres_salloc (framePres_refl s) _
    · simp only [salloc, List.length_append, List.length_cons,
        List.length_nil]
      omega

theorem create_dim_date_prog_frames [Inhabited τ]
    (fcopy f1 f2 f3 f4 f5 f6 fproj : τ → τ) (s : Store τ) (df : Nat) :
    FramePres s (create_dim_date_prog fcopy f1 f2 f3 f4 f5 f6 fproj s df).1 := by
  simp only [create_dim_date_prog]
  apply framePres_salloc
  repeat
    apply framePres_smut _ _ _
      (by simp only [salloc, List.length_append, List.length_cons,
        List.length_nil]; omega)
  exact framePres_salloc (framePres_refl s) _

theorem create_dim_device_prog_frames [Inhabited τ]
    (fcopy ftype fproj fsetid : τ → τ) (unknownRow : τ)
    (fconcat : τ → τ → τ) (s : Store τ) (df : Nat) :
    FramePres s
      (create_dim_device_prog fcopy ftype fproj fsetid unknownRow fconcat s df).1 := by
  simp only [create_dim_device_prog]
  apply framePres_salloc
  apply framePres_salloc
  apply framePres_smut _ _ _
    (by simp only [salloc, smut, List.length_set, List.length_append,
      List.length_cons, List.length_nil]; omega)
  apply framePres_salloc
  apply framePres_smut _ _ _
    (by simp only [salloc, List.length_append, List.length_cons,
      List.length_nil]; omega)
  exact framePres_salloc (framePres_refl s) _

theorem create_dim_track_prog_frames [Inhabited τ]
    (ffilter fproj frename fsetid : τ → τ) (unknownRow : τ)
    (fconcat : τ → τ → τ) (s : Store τ) (df : Nat) :
    FramePres s
      (create_dim_track_prog ffilter fproj frename fsetid unknownRow fconcat s df).1 := by
  simp only [create_dim_track_prog]
  apply framePres_salloc
  apply framePres_salloc
  apply framePres_smut _ _ _
    (by simp only [salloc, List.length_append, List.length_cons,
      List.length_nil]; omega)
  apply framePres_salloc
  apply framePres_salloc
  exact framePres_salloc (framePres_refl s) _

theorem create_dim_episode_prog_frames [Inhabited τ]
    (ffilter fproj frename fsetid : τ → τ) (unknownRow : τ)
    (fconcat : τ → τ → τ) (s : Store τ) (df : Nat) :
    FramePres s
      (create_dim_episode_prog ffilter fproj frename fsetid unknownRow fconcat s df).1 := by
  simp only [create_dim_episode_prog]
  apply framePres_salloc
  apply framePres_salloc
  apply framePres_smut _ _ _
    (by simp only [salloc, List.length_append, List.length_cons,
      List.length_nil]; omega)
  apply framePres_salloc
  apply framePres_salloc
  exact framePres_salloc (framePres_refl s) _

theorem create_dim_location_prog_frames [Inhabited τ]
    (fproj fsetid : τ → τ) (unknownRow : τ) (fconcat : τ → τ → τ)
    (s : Store τ) (df : Nat) :
    FramePres s
      (create_dim_location_prog fproj fsetid unknownRow fconcat s df).1 := by
  simp only [create_dim_location_prog]
  apply framePres_salloc
  apply framePres_salloc
  apply framePres_smut _ _ _
    (by simp only [salloc, List.length_append, List.length_cons,
      List.length_nil]; omega)
  exact framePres_salloc (framePres_refl s) _

theorem create_fact_table_prog_frames [Inhabited τ]
    (fcopy fdate fproj ftrk fep fdev floc fb1 fb2 fb3 fb4 : τ → τ)
    (s : Store τ) (df : Nat) :
    FramePres s
      (create_fact_table_prog fcopy fdate fproj ftrk fep fdev floc
        fb1 fb2 fb3 fb4 s df).1 := by
  simp only [create_fact_table_prog]
  repeat
    apply framePres_smut _ _ _
      (by simp only [salloc, smut, List.length_set, List.length_append,
        List.length_cons, List.length_nil]; omega)
  apply framePres_salloc
  apply framePres_smut _ _ _
    (by simp only [salloc, List.length_append, List.length_cons,
      List.length_nil]; omega)
  exact framePres_salloc (framePres_refl s) _

/-- C9: each core transform — the cleaner, the five dimension builders
and the fact assembler, embedded at object granularity with their
source allocation/mutation shapes — leaves the table object it was
handed unchanged: every in-place column assignment targets a freshly
allocated object, never the input. -/
theorem transforms_never_mutate_input (τ : Type) [Inhabited τ]
    (s : Store τ) (df : Nat) (h : df < s.length)
    (f1 f2 f3 f4 : τ → τ) (nd : τ → Bool)
    (g1 g2 g3 g4 g5 g6 g7 g8 : τ → τ)
    (d1 d2 d3 d4 : τ → τ) (du : τ) (dc : τ → τ → τ)
    (t1 t2 t3 t4 : τ → τ) (tu : τ) (tc : τ → τ → τ)
    (e1 e2 e3 e4 : τ → τ) (eu : τ) (ec : τ → τ → τ)
    (l1 l2 : τ → τ) (lu : τ) (lc : τ → τ → τ)
    (k1 k2 k3 k4 k5 k6 k7 k8 k9 k10 k11 : τ → τ) :
    sread (clean_data_prog f1 f2 f3 f4 nd s df).1 df = sread s df ∧
    sread (create_dim_date_prog g1 g2 g3 g4 g5 g6 g7 g8 s df).1 df =
      sread s df ∧
    sread (create_dim_device_prog d1 d2 d3 d4 du dc s df).1 df =
      sread s df ∧
    sread (create_dim_track_prog t1 t2 t3 t4 tu tc s df).1 df =
      sread s df ∧
    sread (create_dim_episode_prog e1 e2 e3 e4 eu ec s df).1 df =
      sread s df ∧
    sread (create_dim_location_prog l1 l2 lu lc s df).1 df =
      sread s df ∧
    sread (create_fact_table_prog k1 k2 k3 k4 k5 k6 k7 k8 k9 k10 k11 s df).1 df =
      sread s df :=
  ⟨(clean_data_prog_frames f1 f2 f3 f4 nd s df).2 df h,
   (create_dim_date_prog_frames g1 g2 g3 g4 g5 g6 g7 g8 s df).2 df h,
   (create_dim_device_prog_frames d1 d2 d3 d4 du dc s df).2 df h,
   (create_dim_track_prog_frames t1 t2 t3 t4 tu tc s df).2 df h,
   (create_dim_episode_prog_frames e1 e2 e3 e4 eu ec s df).2 df h,
   (create_dim_location_prog_frames l1 l2 lu lc s df).2 df h,
   (create_fact_table_prog_frames k1 k2 k3 k4 k5 k6 k7 k8 k9 k10 k11 s df).2 df h⟩

/-- C9 witness: the frame property at a concrete one-object store. -/
theorem transforms_never_mutate_input_witness :
    0 < ([42] : Store Nat).length ∧
    (sread (clean_data_prog id id id id (fun _ => true) [42] 0).1 0 =
        sread [42] 0 ∧
      sread (create_dim_date_prog id id id id id id id id [42] 0).1 0 =
        sread [42] 0 ∧
      sread (create_dim_device_prog id id id id 7 (fun a _ => a) [42] 0).1 0 =
        sread [42] 0 ∧
      sread (create_dim_track_prog id id id id 7 (fun a _ => a) [42] 0).1 0 =
        sread [42] 0 ∧
      sread (create_dim_episode_prog id id id id 7 (fun a _ => a) [42] 0).1 0 =
        sread [42] 0 ∧
      sread (create_dim_location_prog id id 7 (fun a _ => a) [42] 0).1 0 =
        sread [42] 0 ∧
      sread (create_fact_table_prog id id id id id id id id id id id [42] 0).1 0 =
        sread [42] 0) :=
  ⟨by decide,
    transforms_never_mutate_input Nat [42] 0 (by decide)
      id id id id (fun _ => true)
      id id id id id id id id
      id id id id 7 (fun a _ => a)
      id id id id 7 (fun a _ => a)
      id id id id 7 (fun a _ => a)
      id id 7 (fun a _ => a)
      id id id id id id id id id id id⟩

end SpotifyETL
